import Mathlib

/-!
Verification of the totp-api core (silinternational/totp-api).

Shallow embedding of:
  * helpers/encryption.js  (`encrypt`, `decrypt`)        — src/unnamed/part_000
  * models/u2f.js          (five U2F manager operations) — src/unnamed/part_001
  * models/totp.js         (`create`, `validate`)

Modelling conventions:
  * JS strings are modelled as `Str := List Nat`, the sequence of byte values
    (the UTF-8 encoding of the string).  JS string truthiness (`!s`) becomes
    emptiness of the list; `undefined`/`null` object fields become `none` of
    an `Option Str`.
  * Node's `crypto` AES-256-CTR is a stream cipher: the keystream produced
    from (key, IV) is XORed with the data.  The AES keystream itself is an
    external library primitive; it is modelled as an abstract parameter
    `ks : KS` (key bytes → IV bytes → byte index → keystream byte), and the
    cipher applies `ks` bytewise with XOR, exactly the CTR structure.
  * `crypto.randomBytes(16)` (the fresh IV) is nondeterministic input; each
    operation that encrypts takes the IV(s) it will use as arguments.
  * Base64 is modelled concretely with the standard alphabet and `=` padding.
    (Node's decoder is lenient on garbage input; the strict model below agrees
    with it on every input the claims exercise.)
  * Exceptions thrown by library calls (e.g. `createCipheriv` on a key that is
    not 32 bytes) are not delivered to the error callbacks in the source; they
    crash the request.  Operations therefore return `Option`, with `none`
    standing for such an uncaught throw.
  * `console.log`/`console.error` calls are not modelled (logging is outside
    the spec's scope; argument evaluation of log lines is likewise ignored).
-/

/-- A JS string, as its sequence of byte values. -/
abbrev Str : Type := List Nat

/-- Embed a Lean string literal as a `Str` (code points; ASCII in all uses). -/
def strOf (s : String) : Str := s.data.map Char.toNat

/-- The byte value of the `:` delimiter used in encrypted blobs. -/
def colonByte : Nat := 58

/-- The byte value of the base64 pad character `=`. -/
def padByte : Nat := 61

/-- Standard base64 alphabet: 6-bit value to character byte. -/
def b64Char (n : Nat) : Nat :=
  if n < 26 then 65 + n
  else if n < 52 then 97 + (n - 26)
  else if n < 62 then 48 + (n - 52)
  else if n = 62 then 43
  else 47

/-- Standard base64 alphabet: character byte back to 6-bit value. -/
def b64Val (c : Nat) : Option Nat :=
  if 65 ≤ c ∧ c ≤ 90 then some (c - 65)
  else if 97 ≤ c ∧ c ≤ 122 then some (26 + (c - 97))
  else if 48 ≤ c ∧ c ≤ 57 then some (52 + (c - 48))
  else if c = 43 then some 62
  else if c = 47 then some 63
  else none

/-- Base64-encode a byte sequence (standard alphabet, `=` padding), as done by
`Buffer.prototype.toString('base64')`. -/
def b64Encode : Str → Str
  | [] => []
  | [b0] => [b64Char (b0 / 4), b64Char (b0 % 4 * 16), padByte, padByte]
  | [b0, b1] => [b64Char (b0 / 4), b64Char (b0 % 4 * 16 + b1 / 16),
      b64Char (b1 % 16 * 4), padByte]
  | b0 :: b1 :: b2 :: rest =>
      b64Char (b0 / 4) :: b64Char (b0 % 4 * 16 + b1 / 16) ::
      b64Char (b1 % 16 * 4 + b2 / 64) :: b64Char (b2 % 64) :: b64Encode rest

/-- Base64-decode a character-byte sequence, as done by
`Buffer.from(s, 'base64')` on well-formed input. -/
def b64Decode : Str → Option Str
  | [] => some []
  | c0 :: c1 :: c2 :: c3 :: rest =>
    match b64Val c0, b64Val c1 with
    | some v0, some v1 =>
      if c2 = padByte then
        if c3 = padByte ∧ rest = [] then some [v0 * 4 + v1 / 16] else none
      else
        match b64Val c2 with
        | some v2 =>
          if c3 = padByte then
            if rest = [] then some [v0 * 4 + v1 / 16, v1 % 16 * 16 + v2 / 4]
            else none
          else
            match b64Val c3, b64Decode rest with
            | some v3, some tail =>
                some ((v0 * 4 + v1 / 16) :: (v1 % 16 * 16 + v2 / 4) ::
                  (v2 % 4 * 64 + v3) :: tail)
            | _, _ => none
        | none => none
    | _, _ => none
  | _ => none

/-- JS `String.prototype.split(':')`. -/
def splitOnColon : Str → List Str
  | [] => [[]]
  | c :: rest =>
    if c = colonByte then [] :: splitOnColon rest
    else
      match splitOnColon rest with
      | [] => [[c]]
      | p :: ps => (c :: p) :: ps

/-- Abstract AES-256-CTR keystream: key bytes, IV bytes, byte position ↦
keystream byte.  The concrete AES block function lives in Node's `crypto`
library, outside this repository; only its stream-cipher use is modelled. -/
abbrev KS : Type := Str → Str → Nat → Nat

/-- Apply the keystream from byte position `i` onward (XOR per byte, as
counter mode does).  Keystream bytes are reduced mod 256 since the real
keystream consists of bytes. -/
def ctrXorFrom (ks : KS) (key iv : Str) : Nat → Str → Str
  | _, [] => []
  | i, b :: rest => (b ^^^ ks key iv i % 256) :: ctrXorFrom ks key iv (i + 1) rest

/-- One full CTR pass over `data` (both encryption and decryption). -/
def ctrXor (ks : KS) (key iv data : Str) : Str := ctrXorFrom ks key iv 0 data

/-- `module.exports.encrypt` of helpers/encryption.js (src/unnamed/part_000
lines 3–11): decode the base64 key, take the fresh random 16-byte IV (here an
explicit argument), run AES-256-CTR, and return
`base64(iv) ++ ":" ++ base64(ciphertext)`.  `none` models the exception
`createCipheriv` throws when the key is not 32 bytes (or the IV not 16). -/
def encrypt (ks : KS) (iv : Str) (plainTextMessage aesKeyBase64 : Str) : Option Str :=
  match b64Decode aesKeyBase64 with
  | none => none
  | some key =>
    if key.length = 32 ∧ iv.length = 16 then
      some (b64Encode iv ++ colonByte :: b64Encode (ctrXor ks key iv plainTextMessage))
    else none

/-- The two failure modes of `decrypt`: `formatError` is the colon-count check
that reports through the error callback; `cryptoError` models the exceptions
thrown past the callback by key decoding / `createDecipheriv`. -/
inductive DecryptError : Type where
  | formatError : DecryptError
  | cryptoError : DecryptError
deriving DecidableEq, Repr

/-- `module.exports.decrypt` of helpers/encryption.js (src/unnamed/part_000
lines 13–35): split on `:`; anything but exactly two pieces is reported to the
error callback (`formatError`).  Then base64-decode IV, ciphertext and key and
run the same CTR pass to recover the plaintext. -/
def decrypt (ks : KS) (ivAndEncryptedDataBase64 aesKeyBase64 : Str) :
    Except DecryptError Str :=
  match splitOnColon ivAndEncryptedDataBase64 with
  | [ivB64, ctB64] =>
    match b64Decode ivB64, b64Decode ctB64, b64Decode aesKeyBase64 with
    | some iv, some ct, some key =>
      if key.length = 32 ∧ iv.length = 16 then Except.ok (ctrXor ks key iv ct)
      else Except.error DecryptError.cryptoError
    | _, _, _ => Except.error DecryptError.cryptoError
  | _ => Except.error DecryptError.formatError

/-! ### Basic lemmas about the encoding layers -/

theorem b64Val_b64Char : ∀ n, n < 64 → b64Val (b64Char n) = some n := by decide

theorem b64Char_ne_pad (n : Nat) : b64Char n ≠ padByte := by
  unfold b64Char padByte
  repeat' split
  all_goals omega

theorem b64Char_ne_colon (n : Nat) : b64Char n ≠ colonByte := by
  unfold b64Char colonByte
  repeat' split
  all_goals omega

theorem pad_ne_colon : padByte ≠ colonByte := by decide

theorem b64Encode_no_colon : ∀ s : Str, colonByte ∉ b64Encode s := by
  intro s
  induction s using b64Encode.induct with
  | case1 => simp [b64Encode]
  | case2 b0 =>
      simp only [b64Encode, List.mem_cons, List.not_mem_nil, or_false]
      push_neg
      exact ⟨(b64Char_ne_colon _).symm, (b64Char_ne_colon _).symm,
        fun h => pad_ne_colon h.symm, fun h => pad_ne_colon h.symm⟩
  | case3 b0 b1 =>
      simp only [b64Encode, List.mem_cons, List.not_mem_nil, or_false]
      push_neg
      exact ⟨(b64Char_ne_colon _).symm, (b64Char_ne_colon _).symm,
        (b64Char_ne_colon _).symm, fun h => pad_ne_colon h.symm⟩
  | case4 b0 b1 b2 rest ih =>
      simp only [b64Encode, List.mem_cons]
      push_neg
      exact ⟨(b64Char_ne_colon _).symm, (b64Char_ne_colon _).symm,
        (b64Char_ne_colon _).symm, (b64Char_ne_colon _).symm, ih⟩

theorem b64_roundtrip : ∀ s : Str, (∀ b ∈ s, b < 256) →
    b64Decode (b64Encode s) = some s := by
  intro s
  induction s using b64Encode.induct with
  | case1 => intro _; simp [b64Encode, b64Decode]
  | case2 b0 =>
      intro h
      have hb0 : b0 < 256 := h b0 (by simp)
      simp only [b64Encode, b64Decode,
        b64Val_b64Char _ (by omega : b0 / 4 < 64),
        b64Val_b64Char _ (by omega : b0 % 4 * 16 < 64)]
      simp only [and_self, ite_true, if_pos rfl, Option.some.injEq,
        List.cons.injEq, and_true]
      omega
  | case3 b0 b1 =>
      intro h
      have hb0 : b0 < 256 := h b0 (by simp)
      have hb1 : b1 < 256 := h b1 (by simp)
      simp only [b64Encode, b64Decode,
        b64Val_b64Char _ (by omega : b0 / 4 < 64),
        b64Val_b64Char _ (by omega : b0 % 4 * 16 + b1 / 16 < 64),
        b64Val_b64Char _ (by omega : b1 % 16 * 4 < 64),
        if_neg (b64Char_ne_pad _), if_pos rfl, if_true, eq_self_iff_true,
        Option.some.injEq, List.cons.injEq, and_true]
      omega
  | case4 b0 b1 b2 rest ih =>
      intro h
      have hb0 : b0 < 256 := h b0 (by simp)
      have hb1 : b1 < 256 := h b1 (by simp)
      have hb2 : b2 < 256 := h b2 (by simp)
      have hrest : ∀ b ∈ rest, b < 256 := fun b hb => h b (by simp [hb])
      simp only [b64Encode, b64Decode,
        b64Val_b64Char _ (by omega : b0 / 4 < 64),
        b64Val_b64Char _ (by omega : b0 % 4 * 16 + b1 / 16 < 64),
        b64Val_b64Char _ (by omega : b1 % 16 * 4 + b2 / 64 < 64),
        b64Val_b64Char _ (by omega : b2 % 64 < 64),
        if_neg (b64Char_ne_pad _), ih hrest, Option.some.injEq,
        List.cons.injEq, and_true]
      omega

theorem splitOnColon_no_colon : ∀ s : Str, colonByte ∉ s → splitOnColon s = [s] := by
  intro s
  induction s with
  | nil => intro _; rfl
  | cons c rest ih =>
      intro h
      have hc : c ≠ colonByte := fun hc => h (hc ▸ List.mem_cons_self c rest)
      have hrest : colonByte ∉ rest := fun hr => h (List.mem_cons_of_mem c hr)
      simp only [splitOnColon, if_neg hc, ih hrest]

theorem splitOnColon_append (a b : Str) (ha : colonByte ∉ a) :
    splitOnColon (a ++ colonByte :: b) = a :: splitOnColon b := by
  induction a with
  | nil => simp [splitOnColon]
  | cons c rest ih =>
      have hc : c ≠ colonByte := fun hc => ha (hc ▸ List.mem_cons_self c rest)
      have hrest : colonByte ∉ rest := fun hr => ha (List.mem_cons_of_mem c hr)
      rw [List.cons_append]
      simp only [splitOnColon, if_neg hc]
      rw [ih hrest]

theorem ctrXorFrom_invol (ks : KS) (key iv : Str) :
    ∀ (data : Str) (i : Nat),
      ctrXorFrom ks key iv i (ctrXorFrom ks key iv i data) = data := by
  intro data
  induction data with
  | nil => intro i; rfl
  | cons b rest ih =>
      intro i
      simp only [ctrXorFrom, ih, List.cons.injEq, and_true]
      exact Nat.xor_cancel_right _ _

theorem xor_byte_lt {a b : Nat} (ha : a < 256) (hb : b < 256) : a ^^^ b < 256 := by
  have h : a ^^^ b < 2 ^ 8 := Nat.bitwise_lt (f := bne) (by norm_num [ha]) (by norm_num [hb])
  simpa using h

theorem ctrXorFrom_bytes (ks : KS) (key iv : Str) :
    ∀ (data : Str) (i : Nat), (∀ b ∈ data, b < 256) →
      ∀ b ∈ ctrXorFrom ks key iv i data, b < 256 := by
  intro data
  induction data with
  | nil => intro i _ b hb; simp [ctrXorFrom] at hb
  | cons c rest ih =>
      intro i h b hb
      simp only [ctrXorFrom, List.mem_cons] at hb
      rcases hb with hb | hb
      · subst hb
        exact xor_byte_lt (h c (by simp)) (Nat.mod_lt _ (by norm_num))
      · exact ih (i + 1) (fun x hx => h x (by simp [hx])) b hb

theorem ctrXor_invol (ks : KS) (key iv data : Str) :
    ctrXor ks key iv (ctrXor ks key iv data) = data :=
  ctrXorFrom_invol ks key iv data 0

theorem ctrXor_bytes (ks : KS) (key iv data : Str) (h : ∀ b ∈ data, b < 256) :
    ∀ b ∈ ctrXor ks key iv data, b < 256 :=
  ctrXorFrom_bytes ks key iv data 0 h

/-- Round-trip of the encryption primitive: what `encrypt` produces, `decrypt`
recovers, for any keystream, any 32-byte key and any 16-byte IV. -/
theorem decrypt_encrypt (ks : KS) (iv plain keyB64 key : Str)
    (hkey : b64Decode keyB64 = some key) (hklen : key.length = 32)
    (hivlen : iv.length = 16) (hivb : ∀ b ∈ iv, b < 256)
    (hpb : ∀ b ∈ plain, b < 256) :
    ∃ blob, encrypt ks iv plain keyB64 = some blob ∧
      decrypt ks blob keyB64 = Except.ok plain := by
  refine ⟨b64Encode iv ++ colonByte :: b64Encode (ctrXor ks key iv plain), ?_, ?_⟩
  · simp only [encrypt, hkey, hklen, hivlen, and_self, if_true]
  · have hsplit := splitOnColon_append (b64Encode iv)
      (b64Encode (ctrXor ks key iv plain)) (b64Encode_no_colon iv)
    have hsplit2 := splitOnColon_no_colon (b64Encode (ctrXor ks key iv plain))
      (b64Encode_no_colon _)
    simp only [decrypt, hsplit, hsplit2, b64_roundtrip iv hivb,
      b64_roundtrip _ (ctrXor_bytes ks key iv plain hpb), hkey, hklen, hivlen,
      and_self, if_true, ctrXor_invol]

/-! ### Data model: account records and credential sub-records

The account store (models/api-key.js) and HTTP response helper
(helpers/response.js) are not among the provided source files; their
interfaces are modelled from the spec (§6 Store Adapter, §7 error taxonomy):
`getActivatedApiKey` either fails (any of: lookup error, no such key, not
activated) or yields the record; `getApiKeyByValue` distinguishes a lookup
error from "no record"; `returnError`/`returnSuccess` surface status, message
and body to the caller unchanged; `updateApiKeyRecord` persists the record it
is given, succeeding or failing. -/

/-- A TOTP credential record: `{ encryptedTotpKey }` (models/totp.js line 67). -/
structure TotpEntry : Type where
  encryptedTotpKey : Option Str
deriving DecidableEq, Repr

/-- A U2F credential record; each field is absent (`undefined`/`null`) or a
string (src/unnamed/part_001 lines 104–107, 214, 277–279). -/
structure U2fEntry : Type where
  encryptedAppId : Option Str := none
  encryptedRegistrationRequest : Option Str := none
  encryptedPublicKey : Option Str := none
  encryptedKeyHandle : Option Str := none
  encryptedAuthenticationRequest : Option Str := none
deriving DecidableEq, Repr

/-- An account record: activation flag plus the two credential mappings
(each possibly `undefined` as a whole). -/
structure ApiKeyRecord : Type where
  activated : Bool
  totp : Option (List (Str × TotpEntry)) := none
  u2f : Option (List (Str × U2fEntry)) := none
deriving DecidableEq, Repr

/-- JS truthiness of an optional string field: `undefined`, `null` and the
empty string are falsy; everything else is truthy. -/
def truthy : Option Str → Bool
  | none => false
  | some s => ! s.isEmpty

/-- JS object-property assignment `m[k] = v` on a credential mapping
(keyed overwrite; insertion order is irrelevant to the core). -/
def mapSet {α : Type} (m : List (Str × α)) (k : Str) (v : α) : List (Str × α) :=
  (k, v) :: m.filter (fun p => ! (p.1 == k))

/-- JS `delete m[k]`. -/
def mapDel {α : Type} (m : List (Str × α)) (k : Str) : List (Str × α) :=
  m.filter (fun p => ! (p.1 == k))

/-- What an operation hands to the caller: `response.returnSuccess body` or
`response.returnError status message`. -/
inductive ApiResult (α : Type) : Type where
  | success (body : α) : ApiResult α
  | error (status : Nat) (message : Str) : ApiResult α
deriving DecidableEq, Repr

/-- The observable effect of one manager operation: the response delivered to
the callback, and the record passed to `updateApiKeyRecord` (`none` when the
operation never attempts a store write). -/
structure Outcome (α : Type) : Type where
  result : ApiResult α
  written : Option ApiKeyRecord
deriving DecidableEq, Repr

def msgUnauthorized : Str := strOf "Unauthorized"
def msgNoU2fEntry : Str := strOf "No U2F entry found with that uuid for that API Key."
def msgServerError : Str := strOf "Internal Server Error"
def msgInvalid : Str := strOf "Invalid"
def msgTotpError : Str := strOf "Error validating TOTP code."
def msgCodeRequired : Str := strOf "code (as a string) is required"
def msgRetrieveFailed : Str := strOf "Failed to retrieve API Key."
def msgQrFailed : Str := strOf "Failed to generate QR code."
def msgTotpCreateFailed : Str := strOf "Failed to create new TOTP entry."

/-- The `uuid.v4()` collision loop (`while (m[u2fUuid]) u2fUuid = uuid.v4()`):
`gen` is the stream of generated UUIDs and `fuel` bounds the unbounded JS
loop; `none` models the (astronomically improbable) case that it never finds
a fresh key within `fuel` draws. -/
def allocUuid {α : Type} (gen : Nat → Str) (m : List (Str × α)) : Nat → Option Str
  | 0 => none
  | n + 1 =>
    if (m.lookup (gen 0)).isSome then allocUuid (fun k => gen (k + 1)) m n
    else some (gen 0)

/-- Result of `u2f.checkRegistration` (the u2f npm library): an object with
either a truthy `errorMessage`, or `publicKey`/`keyHandle` on success. -/
structure RegResult : Type where
  errorMessage : Str
  publicKey : Str
  keyHandle : Str

/-! ### U2F manager operations (models/u2f.js, src/unnamed/part_001)

Common parameters:
  * `ks` — the AES-CTR keystream (see above);
  * `fetch : Option ApiKeyRecord` — the outcome of `getActivatedApiKey`
    (`none` for any of its failure modes, which the source maps to one 401);
  * `putOk : Bool` — whether `updateApiKeyRecord` succeeds;
  * the `iv…` arguments — the fresh random IVs consumed by `encrypt` calls.
`none` as overall result models an exception escaping the callback chain. -/

/-- `module.exports.createAuthentication` (part_001 lines 9–85).  `u2fReq`
models `u2f.request(appId, keyHandle)` (serialized), `reqVersion`/
`reqChallenge` the `.version`/`.challenge` fields of that request. -/
def U2f.createAuthentication (ks : KS) (u2fReq : Str → Str → Str)
    (reqVersion reqChallenge : Str → Str) (iv : Str)
    (fetch : Option ApiKeyRecord) (apiSecret u2fUuid : Str) (putOk : Bool) :
    Option (Outcome (Str × Str × Str × Str × Str)) :=
  match fetch with
  | none => some ⟨ApiResult.error 401 msgUnauthorized, none⟩
  | some r =>
    if u2fUuid = [] then some ⟨ApiResult.error 401 msgUnauthorized, none⟩
    else
      match r.u2f with
      | none => some ⟨ApiResult.error 404 msgNoU2fEntry, none⟩
      | some m =>
        match m.lookup u2fUuid with
        | none => some ⟨ApiResult.error 404 msgNoU2fEntry, none⟩
        | some e =>
          if truthy e.encryptedAppId then
            match decrypt ks (e.encryptedAppId.getD []) apiSecret with
            | Except.error DecryptError.cryptoError => none
            | Except.error DecryptError.formatError =>
                some ⟨ApiResult.error 500 msgServerError, none⟩
            | Except.ok appId =>
              if truthy e.encryptedKeyHandle then
                match decrypt ks (e.encryptedKeyHandle.getD []) apiSecret with
                | Except.error DecryptError.cryptoError => none
                | Except.error DecryptError.formatError =>
                    some ⟨ApiResult.error 500 msgServerError, none⟩
                | Except.ok keyHandle =>
                  let authRequest := u2fReq appId keyHandle
                  match encrypt ks iv authRequest apiSecret with
                  | none => none
                  | some blob =>
                    let r' := { r with u2f := some (mapSet m u2fUuid
                      { e with encryptedAuthenticationRequest := some blob }) }
                    if putOk then
                      some ⟨ApiResult.success (u2fUuid, reqVersion authRequest,
                        reqChallenge authRequest, appId, keyHandle), some r'⟩
                    else some ⟨ApiResult.error 500 msgServerError, some r'⟩
              else some ⟨ApiResult.error 500 msgServerError, none⟩
          else some ⟨ApiResult.error 500 msgServerError, none⟩

/-- `module.exports.createRegistration` (part_001 lines 87–125).  `regReq`
models `u2f.request(appId)` serialized.  (The `console.log` on line 88, which
mentions `u2fUuid` before any declaration of it, is not modelled, like all
logging.) -/
def U2f.createRegistration (ks : KS) (regReq : Str → Str) (iv1 iv2 : Str)
    (gen : Nat → Str) (fuel : Nat) (fetch : Option ApiKeyRecord)
    (apiSecret appId : Str) (putOk : Bool) : Option (Outcome (Str × Str)) :=
  match fetch with
  | none => some ⟨ApiResult.error 401 msgUnauthorized, none⟩
  | some r =>
    let registrationRequest := regReq appId
    let m := r.u2f.getD []
    match allocUuid gen m fuel with
    | none => none
    | some u2fUuid =>
      match encrypt ks iv1 appId apiSecret,
            encrypt ks iv2 registrationRequest apiSecret with
      | some encAppId, some encReg =>
        let r' := { r with u2f := some (mapSet m u2fUuid
          { encryptedAppId := some encAppId,
            encryptedRegistrationRequest := some encReg,
            encryptedPublicKey := none, encryptedKeyHandle := none,
            encryptedAuthenticationRequest := none }) }
        if putOk then
          some ⟨ApiResult.success (u2fUuid, registrationRequest), some r'⟩
        else some ⟨ApiResult.error 500 msgServerError, some r'⟩
      | _, _ => none

/-- `module.exports.delete` (part_001 lines 127–162). -/
def U2f.delete (fetch : Option ApiKeyRecord) (u2fUuid : Str) (putOk : Bool) :
    Outcome Unit :=
  match fetch with
  | none => ⟨ApiResult.error 401 msgUnauthorized, none⟩
  | some r =>
    if u2fUuid = [] then ⟨ApiResult.error 401 msgUnauthorized, none⟩
    else
      match r.u2f with
      | none => ⟨ApiResult.error 404 msgNoU2fEntry, none⟩
      | some m =>
        match m.lookup u2fUuid with
        | none => ⟨ApiResult.error 404 msgNoU2fEntry, none⟩
        | some _ =>
          let r' := { r with u2f := some (mapDel m u2fUuid) }
          if putOk then ⟨ApiResult.success (), some r'⟩
          else ⟨ApiResult.error 500 msgServerError, some r'⟩

/-- `module.exports.validateAuthentication` (part_001 lines 164–233).
`checkSig` models `u2f.checkSignature(authRequest, signResult, publicKey)`,
returning its `errorMessage` (`[]` when absent, i.e. success); its third
argument is `none` when `publicKey` is `undefined`.  NOTE (faithful to the
source, line 206): the decrypt error for `encryptedPublicKey` is NOT checked
— on a format error the code continues with an undefined `publicKey`.  On
success the transient request is overwritten with the one-character string
`' '` (line 214); nothing is written on the 400 protocol-failure path. -/
def U2f.validateAuthentication (ks : KS) (checkSig : Str → Str → Option Str → Str)
    (fetch : Option ApiKeyRecord) (apiSecret u2fUuid signResult : Str)
    (putOk : Bool) : Option (Outcome (Str × Nat)) :=
  match fetch with
  | none => some ⟨ApiResult.error 401 msgUnauthorized, none⟩
  | some r =>
    if u2fUuid = [] then some ⟨ApiResult.error 401 msgUnauthorized, none⟩
    else
      match r.u2f with
      | none => some ⟨ApiResult.error 404 msgNoU2fEntry, none⟩
      | some m =>
        match m.lookup u2fUuid with
        | none => some ⟨ApiResult.error 404 msgNoU2fEntry, none⟩
        | some e =>
          if truthy e.encryptedAuthenticationRequest then
            match decrypt ks (e.encryptedAuthenticationRequest.getD []) apiSecret with
            | Except.error DecryptError.cryptoError => none
            | Except.error DecryptError.formatError =>
                some ⟨ApiResult.error 500 msgServerError, none⟩
            | Except.ok authenticationRequest =>
              if truthy e.encryptedPublicKey then
                let pkStep : Option (Option Str) :=
                  match decrypt ks (e.encryptedPublicKey.getD []) apiSecret with
                  | Except.error DecryptError.cryptoError => none
                  | Except.error DecryptError.formatError => some none
                  | Except.ok pk => some (some pk)
                match pkStep with
                | none => none
                | some pk =>
                  let msg := checkSig authenticationRequest signResult pk
                  if msg = [] then
                    let r' := { r with u2f := some (mapSet m u2fUuid
                      { e with encryptedAuthenticationRequest := some (strOf " ") }) }
                    if putOk then
                      some ⟨ApiResult.success (strOf "Valid", 200), some r'⟩
                    else some ⟨ApiResult.error 500 msgServerError, some r'⟩
                  else some ⟨ApiResult.error 400 msg, none⟩
              else some ⟨ApiResult.error 500 msgServerError, none⟩
          else some ⟨ApiResult.error 500 msgServerError, none⟩

/-- `module.exports.validateRegistration` (part_001 lines 235–297).
`checkReg` models `u2f.checkRegistration(registrationRequest, signResult)`.
On a rejected proof (line 271) the caller receives the literal
`'Internal Server Error'` (line 273); `result.errorMessage` goes only to
`console.error` (line 272), which is not modelled. -/
def U2f.validateRegistration (ks : KS) (checkReg : Str → Str → RegResult)
    (iv1 iv2 : Str) (fetch : Option ApiKeyRecord)
    (apiSecret u2fUuid signResult : Str) (putOk : Bool) :
    Option (Outcome Unit) :=
  match fetch with
  | none => some ⟨ApiResult.error 401 msgUnauthorized, none⟩
  | some r =>
    if u2fUuid = [] then some ⟨ApiResult.error 401 msgUnauthorized, none⟩
    else
      match r.u2f with
      | none => some ⟨ApiResult.error 404 msgNoU2fEntry, none⟩
      | some m =>
        match m.lookup u2fUuid with
        | none => some ⟨ApiResult.error 404 msgNoU2fEntry, none⟩
        | some e =>
          if truthy e.encryptedRegistrationRequest then
            match decrypt ks (e.encryptedRegistrationRequest.getD []) apiSecret with
            | Except.error DecryptError.cryptoError => none
            | Except.error DecryptError.formatError =>
                some ⟨ApiResult.error 500 msgServerError, none⟩
            | Except.ok registrationRequest =>
              let result := checkReg registrationRequest signResult
              if result.errorMessage = [] then
                match encrypt ks iv1 result.publicKey apiSecret,
                      encrypt ks iv2 result.keyHandle apiSecret with
                | some encPk, some encKh =>
                  let r' := { r with u2f := some (mapSet m u2fUuid
                    { e with encryptedRegistrationRequest := none,
                             encryptedPublicKey := some encPk,
                             encryptedKeyHandle := some encKh }) }
                  if putOk then some ⟨ApiResult.success (), some r'⟩
                  else some ⟨ApiResult.error 500 msgServerError, some r'⟩
                | _, _ => none
              else some ⟨ApiResult.error 500 msgServerError, none⟩
          else some ⟨ApiResult.error 500 msgServerError, none⟩

/-! ### TOTP manager operations (models/totp.js) -/

/-- `speakeasy.totp.verify({secret, token, window})` (speakeasy npm library,
modelled from its documented behaviour): compare the token against the codes
of the time-step counters in `[counter - window, counter + window]`.  `hotp`
is the abstract per-step code generator (secret, counter ↦ code). -/
def speakeasyVerify (hotp : Str → Nat → Str) (secret token : Str)
    (counter window : Nat) : Bool :=
  ((List.range (2 * window + 1)).map (fun d => counter - window + d)).any
    (fun i => hotp secret i == token)

/-- `module.exports.validate` of models/totp.js (lines 89–171).  `fetch`
models `getApiKeyByValue` (`Except.error ()` = lookup error, `Except.ok none`
= no such key); `counter` is the current 30-second time step. -/
def Totp.validate (hotp : Str → Nat → Str) (counter : Nat) (ks : KS)
    (fetch : Except Unit (Option ApiKeyRecord))
    (apiKeyValue apiSecret totpUuid code : Str) :
    Option (Outcome (Str × Nat)) :=
  if apiKeyValue = [] then some ⟨ApiResult.error 401 msgUnauthorized, none⟩
  else if apiSecret = [] then some ⟨ApiResult.error 401 msgUnauthorized, none⟩
  else if totpUuid = [] then some ⟨ApiResult.error 401 msgUnauthorized, none⟩
  else if code = [] then some ⟨ApiResult.error 400 msgCodeRequired, none⟩
  else
    match fetch with
    | Except.error _ => some ⟨ApiResult.error 500 msgTotpError, none⟩
    | Except.ok none => some ⟨ApiResult.error 401 msgUnauthorized, none⟩
    | Except.ok (some r) =>
      if r.activated then
        match r.totp with
        | none => some ⟨ApiResult.error 401 msgUnauthorized, none⟩
        | some m =>
          match m.lookup totpUuid with
          | none => some ⟨ApiResult.error 401 msgUnauthorized, none⟩
          | some e =>
            if truthy e.encryptedTotpKey then
              match decrypt ks (e.encryptedTotpKey.getD []) apiSecret with
              | Except.error DecryptError.cryptoError => none
              | Except.error DecryptError.formatError =>
                  some ⟨ApiResult.error 500 msgTotpError, none⟩
              | Except.ok totpKey =>
                if speakeasyVerify hotp totpKey code counter 1 then
                  some ⟨ApiResult.success (strOf "Valid", 200), none⟩
                else some ⟨ApiResult.error 401 msgInvalid, none⟩
            else some ⟨ApiResult.error 500 msgTotpError, none⟩
      else some ⟨ApiResult.error 401 msgUnauthorized, none⟩

/-- `module.exports.create` of models/totp.js (lines 10–87).  `secretB32`
models `speakeasy.generateSecret().base32`; `qr` models
`qrCode.toDataURL(otpauthURL)`; the otpauth URL itself has no protocol
meaning here and is not tracked beyond its label/issuer inputs. -/
def Totp.create (secretB32 : Str) (qr : Except Unit Str) (ks : KS) (iv : Str)
    (gen : Nat → Str) (fuel : Nat) (fetch : Except Unit (Option ApiKeyRecord))
    (apiKeyValue apiSecret : Str) (putOk : Bool) :
    Option (Outcome (Str × Str × Str)) :=
  if apiKeyValue = [] then some ⟨ApiResult.error 401 msgUnauthorized, none⟩
  else if apiSecret = [] then some ⟨ApiResult.error 401 msgUnauthorized, none⟩
  else
    match fetch with
    | Except.error _ => some ⟨ApiResult.error 500 msgRetrieveFailed, none⟩
    | Except.ok none => some ⟨ApiResult.error 401 msgUnauthorized, none⟩
    | Except.ok (some r) =>
      if r.activated then
        match qr with
        | Except.error _ => some ⟨ApiResult.error 500 msgQrFailed, none⟩
        | Except.ok dataUrl =>
          let m := r.totp.getD []
          match allocUuid gen m fuel with
          | none => none
          | some totpUuid =>
            match encrypt ks iv secretB32 apiSecret with
            | none => none
            | some encKey =>
              let r' := { r with totp := some (mapSet m totpUuid
                ⟨some encKey⟩) }
              if putOk then
                some ⟨ApiResult.success (totpUuid, secretB32, dataUrl), some r'⟩
              else some ⟨ApiResult.error 500 msgTotpCreateFailed, some r'⟩
      else some ⟨ApiResult.error 401 msgUnauthorized, none⟩

/-! ### Helper lemmas about the data model -/

theorem lookup_mem {α : Type} {m : List (Str × α)} {k : Str} {v : α}
    (h : m.lookup k = some v) : (k, v) ∈ m := by
  induction m with
  | nil => simp [List.lookup] at h
  | cons p rest ih =>
      rw [List.lookup] at h
      by_cases hk : (k == p.1) = true
      · simp only [hk] at h
        cases h
        have hk' : k = p.1 := eq_of_beq hk
        cases p
        simp_all
      · simp only [Bool.not_eq_true] at hk
        rw [hk] at h
        exact List.mem_cons_of_mem _ (ih h)

theorem lookup_mapSet_self {α : Type} (m : List (Str × α)) (k : Str) (v : α) :
    (mapSet m k v).lookup k = some v := by
  simp [mapSet, List.lookup]

theorem mem_mapSet {α : Type} {m : List (Str × α)} {k : Str} {v : α} {p : Str × α}
    (h : p ∈ mapSet m k v) : p = (k, v) ∨ p ∈ m := by
  rcases List.mem_cons.mp h with h' | h'
  · left; exact h'
  · right; exact List.mem_of_mem_filter h'

theorem encrypt_ne_nil (ks : KS) (iv plain keyB64 blob : Str)
    (h : encrypt ks iv plain keyB64 = some blob) : blob ≠ [] := by
  unfold encrypt at h
  split at h
  · cases h
  · split at h
    · cases h
      simp
    · cases h

theorem decrypt_key_shape (ks : KS) (blob keyB64 plain : Str)
    (h : decrypt ks blob keyB64 = Except.ok plain) :
    ∃ key, b64Decode keyB64 = some key ∧ key.length = 32 := by
  unfold decrypt at h
  split at h
  · split at h
    · split at h
      · rename_i key h1 h2 h3 hc
        exact ⟨key, h3, hc.1⟩
      · cases h
    · cases h
  · cases h

theorem decrypt_space_format_error (ks : KS) (keyB64 : Str) :
    decrypt ks (strOf " ") keyB64 = Except.error DecryptError.formatError := by
  have : splitOnColon (strOf " ") = [strOf " "] := by decide
  simp [decrypt, this]

/-! ### Concrete artifacts used by the witnesses -/

/-- An all-zero keystream (one admissible instantiation of the abstract AES
keystream; every theorem below is proved for arbitrary `ks`). -/
def ksZero : KS := fun _ _ _ => 0

def keyZero : Str := List.replicate 32 0

/-- A valid 256-bit key in its base64 transport form. -/
def keyZeroB64 : Str := b64Encode keyZero

def ivZero : Str := List.replicate 16 0

/-- The blob `encrypt ksZero ivZero plain keyZeroB64` produces (under the
all-zero keystream the ciphertext bytes equal the plaintext bytes). -/
def blobOf (plain : Str) : Str := b64Encode ivZero ++ colonByte :: b64Encode plain

/-! ### Claims -/

/-- C3: for every string `s` and every valid 256-bit base64-encoded key `k`,
decrypting the blob produced by `encrypt(s, k)` with the same key `k` returns
exactly `s` — for any AES keystream, any 16-byte IV, and any plaintext byte
sequence. -/
theorem c3_encrypt_decrypt_roundtrip (ks : KS) (iv plain keyB64 key : Str)
    (hkey : b64Decode keyB64 = some key) (hklen : key.length = 32)
    (hivlen : iv.length = 16) (hivb : ∀ b ∈ iv, b < 256)
    (hpb : ∀ b ∈ plain, b < 256) :
    ∃ blob, encrypt ks iv plain keyB64 = some blob ∧
      decrypt ks blob keyB64 = Except.ok plain :=
  decrypt_encrypt ks iv plain keyB64 key hkey hklen hivlen hivb hpb

theorem c3_witness :
    b64Decode keyZeroB64 = some keyZero ∧ keyZero.length = 32 ∧
    (∃ blob, encrypt ksZero ivZero (strOf "hello") keyZeroB64 = some blob ∧
      decrypt ksZero blob keyZeroB64 = Except.ok (strOf "hello")) :=
  ⟨by decide, by decide,
    c3_encrypt_decrypt_roundtrip ksZero ivZero (strOf "hello") keyZeroB64 keyZero
      (by decide) (by decide) (by decide) (by decide) (by decide)⟩

/-- C7: for every key, `decrypt` on any input that does not split into exactly
two `:`-delimited parts fails through the error callback with the format
error and never delivers a plaintext. -/
theorem c7_decrypt_format_rejection (ks : KS) (keyB64 s : Str)
    (h : (splitOnColon s).length ≠ 2) :
    decrypt ks s keyB64 = Except.error DecryptError.formatError := by
  unfold decrypt
  split
  · rename_i a b heq
    rw [heq] at h
    simp at h
  · rfl

theorem c7_witness :
    (splitOnColon (strOf "no-colon-here")).length ≠ 2 ∧
    (splitOnColon (strOf "a:b:c")).length ≠ 2 ∧
    decrypt ksZero (strOf "no-colon-here") keyZeroB64 =
      Except.error DecryptError.formatError ∧
    decrypt ksZero (strOf "a:b:c") keyZeroB64 =
      Except.error DecryptError.formatError :=
  ⟨by decide, by decide,
    c7_decrypt_format_rejection ksZero keyZeroB64 (strOf "no-colon-here") (by decide),
    c7_decrypt_format_rejection ksZero keyZeroB64 (strOf "a:b:c") (by decide)⟩

/-- C9: TOTP `validate` never mutates stored state: on every input and every
outcome (Valid, Invalid, any error, even a crash) it never hands a record to
`updateApiKeyRecord`; the account record and its totp mapping are whatever
they were, so the same code remains verifiable repeatedly within its
window. -/
theorem c9_totp_validate_never_writes (hotp : Str → Nat → Str) (counter : Nat)
    (ks : KS) (fetch : Except Unit (Option ApiKeyRecord))
    (apiKeyValue apiSecret totpUuid code : Str) :
    ((Totp.validate hotp counter ks fetch apiKeyValue apiSecret totpUuid
      code).map Outcome.written).getD none = none := by
  unfold Totp.validate
  repeat' split
  all_goals rfl

/-- speakeasy's `window: 1` compares the token against exactly the previous,
current and next time-step codes (the comment at models/totp.js line 157). -/
theorem speakeasyVerify_window_one (hotp : Str → Nat → Str) (secret token : Str)
    (counter : Nat) (h : 1 ≤ counter) :
    (speakeasyVerify hotp secret token counter 1 = true) ↔
      token ∈ [hotp secret (counter - 1), hotp secret counter,
        hotp secret (counter + 1)] := by
  have h1 : counter - 1 + 1 = counter := by omega
  have h2 : counter - 1 + 2 = counter + 1 := by omega
  have hr : List.range (2 * 1 + 1) = [0, 1, 2] := by decide
  simp only [speakeasyVerify, hr, List.map_cons, List.map_nil, Nat.add_zero,
    h1, h2, List.any_cons, List.any_nil, Bool.or_false, Bool.or_eq_true,
    beq_iff_eq, List.mem_cons, List.not_mem_nil, or_false]
  constructor
  · rintro (h' | h' | h') <;> [exact Or.inl h'.symm; exact Or.inr (Or.inl h'.symm);
      exact Or.inr (Or.inr h'.symm)]
  · rintro (h' | h' | h') <;> [exact Or.inl h'.symm; exact Or.inr (Or.inl h'.symm);
      exact Or.inr (Or.inr h'.symm)]

/-- C4: TOTP `validate` with all preconditions satisfied returns Valid exactly
when the submitted code equals one of the three candidate codes computed from
the decrypted seed at the previous, current and next 30-second step, and
Invalid (401) otherwise. -/
theorem c4_totp_validate_window (hotp : Str → Nat → Str) (counter : Nat) (ks : KS)
    (r : ApiKeyRecord) (m : List (Str × TotpEntry)) (e : TotpEntry)
    (apiKeyValue apiSecret totpUuid code blob seed : Str)
    (hAK : apiKeyValue ≠ []) (hAS : apiSecret ≠ []) (hU : totpUuid ≠ [])
    (hC : code ≠ []) (hact : r.activated = true) (hm : r.totp = some m)
    (hlu : m.lookup totpUuid = some e) (hek : e.encryptedTotpKey = some blob)
    (hblob : blob ≠ []) (hdec : decrypt ks blob apiSecret = Except.ok seed)
    (hcnt : 1 ≤ counter) :
    Totp.validate hotp counter ks (Except.ok (some r)) apiKeyValue apiSecret
      totpUuid code =
      some ⟨if code ∈ [hotp seed (counter - 1), hotp seed counter,
              hotp seed (counter + 1)] then ApiResult.success (strOf "Valid", 200)
            else ApiResult.error 401 msgInvalid, none⟩ := by
  have htr : truthy e.encryptedTotpKey = true := by
    rw [hek]
    simp [truthy, hblob]
  have hgd : e.encryptedTotpKey.getD [] = blob := by rw [hek]; rfl
  unfold Totp.validate
  rw [if_neg hAK, if_neg hAS, if_neg hU, if_neg hC]
  simp only [hact, if_true, hm, hlu, htr, hgd, hdec]
  by_cases hmem : code ∈ [hotp seed (counter - 1), hotp seed counter,
      hotp seed (counter + 1)]
  · rw [if_pos ((speakeasyVerify_window_one hotp seed code counter hcnt).mpr hmem),
      if_pos hmem]
  · rw [if_neg (fun hh => hmem
      ((speakeasyVerify_window_one hotp seed code counter hcnt).mp hh)),
      if_neg hmem]

theorem c4_witness :
    decrypt ksZero (blobOf (strOf "seed")) keyZeroB64 = Except.ok (strOf "seed") ∧
    Totp.validate (fun _ i => [i]) 5 ksZero
      (Except.ok (some ⟨true, some [(strOf "u", ⟨some (blobOf (strOf "seed"))⟩)], none⟩))
      (strOf "k") keyZeroB64 (strOf "u") [5] =
      some ⟨if ([5] : Str) ∈ [[4], [5], [6]] then ApiResult.success (strOf "Valid", 200)
            else ApiResult.error 401 msgInvalid, none⟩ :=
  ⟨rfl,
    c4_totp_validate_window (fun _ i => [i]) 5 ksZero
      ⟨true, some [(strOf "u", ⟨some (blobOf (strOf "seed"))⟩)], none⟩
      [(strOf "u", ⟨some (blobOf (strOf "seed"))⟩)]
      ⟨some (blobOf (strOf "seed"))⟩
      (strOf "k") keyZeroB64 (strOf "u") [5] (blobOf (strOf "seed")) (strOf "seed")
      (by decide) (by decide) (by decide) (by decide) rfl rfl (by decide) rfl
      (by decide) rfl (by decide)⟩

/-! ### Shapes of `validateAuthentication` (part_001 lines 164–233) -/

/-- Success path: the signature check accepts, the transient request is
overwritten with `' '` and the record is handed to `updateApiKeyRecord`. -/
theorem validateAuthentication_success (ks : KS)
    (checkSig : Str → Str → Option Str → Str) (r : ApiKeyRecord)
    (m : List (Str × U2fEntry)) (e : U2fEntry)
    (apiSecret u2fUuid signResult ablob areq pblob pk : Str) (putOk : Bool)
    (hU : u2fUuid ≠ []) (hu2f : r.u2f = some m) (hlu : m.lookup u2fUuid = some e)
    (hauth : e.encryptedAuthenticationRequest = some ablob) (hab : ablob ≠ [])
    (hdec : decrypt ks ablob apiSecret = Except.ok areq)
    (hpk : e.encryptedPublicKey = some pblob) (hpb : pblob ≠ [])
    (hpdec : decrypt ks pblob apiSecret = Except.ok pk)
    (hok : checkSig areq signResult (some pk) = []) :
    U2f.validateAuthentication ks checkSig (some r) apiSecret u2fUuid signResult
      putOk =
      some ⟨if putOk then ApiResult.success (strOf "Valid", 200)
            else ApiResult.error 500 msgServerError,
        some { r with u2f := some (mapSet m u2fUuid
          { e with encryptedAuthenticationRequest := some (strOf " ") }) }⟩ := by
  have htr : truthy e.encryptedAuthenticationRequest = true := by
    rw [hauth]; simp [truthy, hab]
  have hgd : e.encryptedAuthenticationRequest.getD [] = ablob := by rw [hauth]; rfl
  have htr2 : truthy e.encryptedPublicKey = true := by
    rw [hpk]; simp [truthy, hpb]
  have hgd2 : e.encryptedPublicKey.getD [] = pblob := by rw [hpk]; rfl
  simp only [U2f.validateAuthentication, if_neg hU, hu2f, hlu, htr, hgd, hdec,
    htr2, hgd2, hpdec, hok, if_true]
  cases putOk <;> rfl

/-- Protocol-failure path: the signature check rejects; the operation returns
400 with the check's own message and performs no store write — in particular
the transient request is left in place. -/
theorem validateAuthentication_protocol_failure (ks : KS)
    (checkSig : Str → Str → Option Str → Str) (r : ApiKeyRecord)
    (m : List (Str × U2fEntry)) (e : U2fEntry)
    (apiSecret u2fUuid signResult ablob areq pblob pk : Str) (putOk : Bool)
    (hU : u2fUuid ≠ []) (hu2f : r.u2f = some m) (hlu : m.lookup u2fUuid = some e)
    (hauth : e.encryptedAuthenticationRequest = some ablob) (hab : ablob ≠ [])
    (hdec : decrypt ks ablob apiSecret = Except.ok areq)
    (hpk : e.encryptedPublicKey = some pblob) (hpb : pblob ≠ [])
    (hpdec : decrypt ks pblob apiSecret = Except.ok pk)
    (hmsg : checkSig areq signResult (some pk) ≠ []) :
    U2f.validateAuthentication ks checkSig (some r) apiSecret u2fUuid signResult
      putOk =
      some ⟨ApiResult.error 400 (checkSig areq signResult (some pk)), none⟩ := by
  have htr : truthy e.encryptedAuthenticationRequest = true := by
    rw [hauth]; simp [truthy, hab]
  have hgd : e.encryptedAuthenticationRequest.getD [] = ablob := by rw [hauth]; rfl
  have htr2 : truthy e.encryptedPublicKey = true := by
    rw [hpk]; simp [truthy, hpb]
  have hgd2 : e.encryptedPublicKey.getD [] = pblob := by rw [hpk]; rfl
  simp only [U2f.validateAuthentication, if_neg hU, hu2f, hlu, htr, hgd, hdec,
    htr2, hgd2, hpdec, if_true, if_neg hmsg]

/-- A credential whose transient request holds the `' '` marker passes the
presence check but fails to decrypt: the call ends as 500 with no write. -/
theorem validateAuthentication_after_clear (ks : KS)
    (checkSig : Str → Str → Option Str → Str) (r : ApiKeyRecord)
    (m : List (Str × U2fEntry)) (e : U2fEntry)
    (apiSecret u2fUuid signResult : Str) (putOk : Bool)
    (hU : u2fUuid ≠ []) (hu2f : r.u2f = some m) (hlu : m.lookup u2fUuid = some e)
    (hauth : e.encryptedAuthenticationRequest = some (strOf " ")) :
    U2f.validateAuthentication ks checkSig (some r) apiSecret u2fUuid signResult
      putOk = some ⟨ApiResult.error 500 msgServerError, none⟩ := by
  have htr : truthy e.encryptedAuthenticationRequest = true := by
    rw [hauth]; simp [truthy, strOf]
  have hgd : e.encryptedAuthenticationRequest.getD [] = strOf " " := by
    rw [hauth]; rfl
  simp only [U2f.validateAuthentication, if_neg hU, hu2f, hlu, htr, hgd,
    decrypt_space_format_error, if_true]

/-- A registered U2F credential with a pending authentication challenge,
stored under the all-zero key, used by the concrete scenarios below. -/
def entryAuth : U2fEntry :=
  ⟨some (blobOf (strOf "app")), none, some (blobOf (strOf "pk")),
    some (blobOf (strOf "kh")), some (blobOf (strOf "areq"))⟩

def recAuth : ApiKeyRecord := ⟨true, none, some [(strOf "u", entryAuth)]⟩

/-- The record `validateAuthentication` persists after a successful proof on
`recAuth`: the transient request is replaced by the `' '` marker. -/
def recAuthCleared : ApiKeyRecord :=
  ⟨true, none, some [(strOf "u",
    ⟨some (blobOf (strOf "app")), none, some (blobOf (strOf "pk")),
      some (blobOf (strOf "kh")), some (strOf " ")⟩)]⟩

/-- C1 as stated is false on the code: here is a call on which every
precondition of the claim holds (activated account fetched, uuid present,
transient request present and decryptable) and the signature check fails —
and the operation returns 400 with NO store write, so the transient request
is not cleared; a second identical call on the unchanged record with a proof
the checker accepts then succeeds, i.e. the challenge was not consumed by the
failed first call. -/
theorem c1_counterexample :
    (U2f.validateAuthentication ksZero (fun _ _ _ => strOf "bad signature")
        (some recAuth) keyZeroB64 (strOf "u") (strOf "sig") true
      = some ⟨ApiResult.error 400 (strOf "bad signature"), none⟩) ∧
    (U2f.validateAuthentication ksZero (fun _ _ _ => [])
        (some recAuth) keyZeroB64 (strOf "u") (strOf "sig") true
      = some ⟨ApiResult.success (strOf "Valid", 200), some recAuthCleared⟩) := by
  constructor
  · rfl
  · rfl

/-- C1 (amended): the transient authentication request is cleared (overwritten
with the `' '` marker) and persisted only when the signature check succeeds;
on a failed check the operation returns 400 with no store write, leaving the
challenge in place.  A second call with the same UUID fails (500, the marker
does not decrypt) only after a successful first call. -/
theorem c1_auth_challenge_cleared_only_on_success (ks : KS)
    (checkSig checkSig2 : Str → Str → Option Str → Str) (r : ApiKeyRecord)
    (m : List (Str × U2fEntry)) (e : U2fEntry)
    (apiSecret u2fUuid signResult ablob areq pblob pk : Str) (putOk : Bool)
    (hU : u2fUuid ≠ []) (hu2f : r.u2f = some m) (hlu : m.lookup u2fUuid = some e)
    (hauth : e.encryptedAuthenticationRequest = some ablob) (hab : ablob ≠ [])
    (hdec : decrypt ks ablob apiSecret = Except.ok areq)
    (hpk : e.encryptedPublicKey = some pblob) (hpb : pblob ≠ [])
    (hpdec : decrypt ks pblob apiSecret = Except.ok pk)
    (hok : checkSig areq signResult (some pk) = [])
    (hmsg : checkSig2 areq signResult (some pk) ≠ []) :
    (U2f.validateAuthentication ks checkSig2 (some r) apiSecret u2fUuid
        signResult putOk
      = some ⟨ApiResult.error 400 (checkSig2 areq signResult (some pk)), none⟩) ∧
    (U2f.validateAuthentication ks checkSig (some r) apiSecret u2fUuid
        signResult putOk
      = some ⟨if putOk then ApiResult.success (strOf "Valid", 200)
              else ApiResult.error 500 msgServerError,
          some { r with u2f := some (mapSet m u2fUuid
            { e with encryptedAuthenticationRequest := some (strOf " ") }) }⟩) ∧
    (∀ (checkSig3 : Str → Str → Option Str → Str) (signResult3 : Str)
        (putOk3 : Bool),
      U2f.validateAuthentication ks checkSig3
        (some { r with u2f := some (mapSet m u2fUuid
          { e with encryptedAuthenticationRequest := some (strOf " ") }) })
        apiSecret u2fUuid signResult3 putOk3
      = some ⟨ApiResult.error 500 msgServerError, none⟩) := by
  refine ⟨?_, ?_, ?_⟩
  · exact validateAuthentication_protocol_failure ks checkSig2 r m e apiSecret
      u2fUuid signResult ablob areq pblob pk putOk hU hu2f hlu hauth hab hdec
      hpk hpb hpdec hmsg
  · exact validateAuthentication_success ks checkSig r m e apiSecret u2fUuid
      signResult ablob areq pblob pk putOk hU hu2f hlu hauth hab hdec hpk hpb
      hpdec hok
  · intro checkSig3 signResult3 putOk3
    exact validateAuthentication_after_clear ks checkSig3 _ (mapSet m u2fUuid
        { e with encryptedAuthenticationRequest := some (strOf " ") })
      { e with encryptedAuthenticationRequest := some (strOf " ") }
      apiSecret u2fUuid signResult3 putOk3 hU rfl
      (lookup_mapSet_self m u2fUuid _) rfl

theorem c1_witness :
    decrypt ksZero (blobOf (strOf "areq")) keyZeroB64 = Except.ok (strOf "areq") ∧
    (U2f.validateAuthentication ksZero (fun _ _ _ => strOf "denied")
        (some recAuth) keyZeroB64 (strOf "u") (strOf "sig") true
      = some ⟨ApiResult.error 400 (strOf "denied"), none⟩) ∧
    (U2f.validateAuthentication ksZero (fun _ _ _ => [])
        (some recAuth) keyZeroB64 (strOf "u") (strOf "sig") true
      = some ⟨ApiResult.success (strOf "Valid", 200), some recAuthCleared⟩) ∧
    (U2f.validateAuthentication ksZero (fun _ _ _ => [])
        (some recAuthCleared) keyZeroB64 (strOf "u") (strOf "sig") true
      = some ⟨ApiResult.error 500 msgServerError, none⟩) := by
  have h := c1_auth_challenge_cleared_only_on_success ksZero
    (fun _ _ _ => []) (fun _ _ _ => strOf "denied") recAuth
    [(strOf "u", entryAuth)] entryAuth keyZeroB64 (strOf "u") (strOf "sig")
    (blobOf (strOf "areq")) (strOf "areq") (blobOf (strOf "pk")) (strOf "pk")
    true (by decide) rfl (by decide) rfl (by decide) rfl rfl (by decide) rfl
    rfl (by decide)
  exact ⟨rfl, h.1, h.2.1, h.2.2 (fun _ _ _ => []) (strOf "sig") true⟩

/-- C10: after a successful `validateAuthentication` the credential's
`encryptedAuthenticationRequest` is the one-character string `' '` — a
non-empty, truthy value — so a subsequent call on that UUID passes the
request-presence check and fails only later, when decrypting `' '` yields a
format error surfacing as 500 Internal Server Error (not as the
missing-request 500-precondition path, and not as a 404). -/
theorem c10_space_marker_truthy_then_internal_error (ks : KS)
    (checkSig : Str → Str → Option Str → Str) (r : ApiKeyRecord)
    (m : List (Str × U2fEntry)) (e : U2fEntry)
    (apiSecret u2fUuid signResult ablob areq pblob pk : Str) (putOk : Bool)
    (hU : u2fUuid ≠ []) (hu2f : r.u2f = some m) (hlu : m.lookup u2fUuid = some e)
    (hauth : e.encryptedAuthenticationRequest = some ablob) (hab : ablob ≠ [])
    (hdec : decrypt ks ablob apiSecret = Except.ok areq)
    (hpk : e.encryptedPublicKey = some pblob) (hpb : pblob ≠ [])
    (hpdec : decrypt ks pblob apiSecret = Except.ok pk)
    (hok : checkSig areq signResult (some pk) = []) :
    (U2f.validateAuthentication ks checkSig (some r) apiSecret u2fUuid
        signResult putOk
      = some ⟨if putOk then ApiResult.success (strOf "Valid", 200)
              else ApiResult.error 500 msgServerError,
          some { r with u2f := some (mapSet m u2fUuid
            { e with encryptedAuthenticationRequest := some (strOf " ") }) }⟩) ∧
    ((mapSet m u2fUuid
        { e with encryptedAuthenticationRequest := some (strOf " ") }).lookup
        u2fUuid
      = some { e with encryptedAuthenticationRequest := some (strOf " ") }) ∧
    (strOf " " ≠ [] ∧ truthy (some (strOf " ")) = true) ∧
    (decrypt ks (strOf " ") apiSecret = Except.error DecryptError.formatError) ∧
    (∀ (checkSig2 : Str → Str → Option Str → Str) (signResult2 : Str)
        (putOk2 : Bool),
      U2f.validateAuthentication ks checkSig2
        (some { r with u2f := some (mapSet m u2fUuid
          { e with encryptedAuthenticationRequest := some (strOf " ") }) })
        apiSecret u2fUuid signResult2 putOk2
      = some ⟨ApiResult.error 500 msgServerError, none⟩) := by
  refine ⟨?_, ?_, ⟨by decide, by decide⟩, decrypt_space_format_error ks apiSecret, ?_⟩
  · exact validateAuthentication_success ks checkSig r m e apiSecret u2fUuid
      signResult ablob areq pblob pk putOk hU hu2f hlu hauth hab hdec hpk hpb
      hpdec hok
  · exact lookup_mapSet_self m u2fUuid _
  · intro checkSig2 signResult2 putOk2
    exact validateAuthentication_after_clear ks checkSig2 _ (mapSet m u2fUuid
        { e with encryptedAuthenticationRequest := some (strOf " ") })
      { e with encryptedAuthenticationRequest := some (strOf " ") }
      apiSecret u2fUuid signResult2 putOk2 hU rfl
      (lookup_mapSet_self m u2fUuid _) rfl

theorem c10_witness :
    decrypt ksZero (blobOf (strOf "pk")) keyZeroB64 = Except.ok (strOf "pk") ∧
    (U2f.validateAuthentication ksZero (fun _ _ _ => [])
        (some recAuth) keyZeroB64 (strOf "u") (strOf "sig") true
      = some ⟨if true then ApiResult.success (strOf "Valid", 200)
              else ApiResult.error 500 msgServerError,
          some { recAuth with u2f := some (mapSet [(strOf "u", entryAuth)]
            (strOf "u") { entryAuth with
              encryptedAuthenticationRequest := some (strOf " ") }) }⟩) ∧
    (∀ (putOk2 : Bool),
      U2f.validateAuthentication ksZero (fun _ _ _ => [])
        (some { recAuth with u2f := some (mapSet [(strOf "u", entryAuth)]
          (strOf "u") { entryAuth with
            encryptedAuthenticationRequest := some (strOf " ") }) })
        keyZeroB64 (strOf "u") (strOf "sig") putOk2
      = some ⟨ApiResult.error 500 msgServerError, none⟩) := by
  have h := c10_space_marker_truthy_then_internal_error ksZero
    (fun _ _ _ => []) recAuth [(strOf "u", entryAuth)] entryAuth keyZeroB64
    (strOf "u") (strOf "sig") (blobOf (strOf "areq")) (strOf "areq")
    (blobOf (strOf "pk")) (strOf "pk") true (by decide) rfl (by decide) rfl
    (by decide) rfl rfl (by decide) rfl rfl
  exact ⟨rfl, h.1, fun putOk2 =>
    h.2.2.2.2 (fun _ _ _ => []) (strOf "sig") putOk2⟩

/-! ### Shapes of `validateRegistration` (part_001 lines 235–297) -/

/-- Protocol-failure path of `validateRegistration`: the registration check
rejects and the operation returns the generic 500 Internal Server Error with
no store write; the check's own `errorMessage` is only logged (part_001
lines 272–273). -/
theorem validateRegistration_protocol_failure (ks : KS)
    (checkReg : Str → Str → RegResult) (iv1 iv2 : Str) (r : ApiKeyRecord)
    (m : List (Str × U2fEntry)) (e : U2fEntry)
    (apiSecret u2fUuid signResult rblob req : Str) (putOk : Bool)
    (hU : u2fUuid ≠ []) (hu2f : r.u2f = some m) (hlu : m.lookup u2fUuid = some e)
    (hreg : e.encryptedRegistrationRequest = some rblob) (hrb : rblob ≠ [])
    (hdec : decrypt ks rblob apiSecret = Except.ok req)
    (hmsg : (checkReg req signResult).errorMessage ≠ []) :
    U2f.validateRegistration ks checkReg iv1 iv2 (some r) apiSecret u2fUuid
      signResult putOk
      = some ⟨ApiResult.error 500 msgServerError, none⟩ := by
  have htr : truthy e.encryptedRegistrationRequest = true := by
    rw [hreg]; simp [truthy, hrb]
  have hgd : e.encryptedRegistrationRequest.getD [] = rblob := by rw [hreg]; rfl
  simp only [U2f.validateRegistration, if_neg hU, hu2f, hlu, htr, hgd, hdec,
    if_true, if_neg hmsg]

/-- Success path of `validateRegistration`: the registration challenge is
cleared (`null`) and the encrypted public key and key handle are stored. -/
theorem validateRegistration_success (ks : KS)
    (checkReg : Str → Str → RegResult) (iv1 iv2 : Str) (r : ApiKeyRecord)
    (m : List (Str × U2fEntry)) (e : U2fEntry)
    (apiSecret u2fUuid signResult rblob req key : Str) (putOk : Bool)
    (hU : u2fUuid ≠ []) (hu2f : r.u2f = some m) (hlu : m.lookup u2fUuid = some e)
    (hreg : e.encryptedRegistrationRequest = some rblob) (hrb : rblob ≠ [])
    (hdec : decrypt ks rblob apiSecret = Except.ok req)
    (hok : (checkReg req signResult).errorMessage = [])
    (hkey : b64Decode apiSecret = some key) (hklen : key.length = 32)
    (hiv1 : iv1.length = 16) (hiv2 : iv2.length = 16) :
    U2f.validateRegistration ks checkReg iv1 iv2 (some r) apiSecret u2fUuid
      signResult putOk
      = some ⟨if putOk then ApiResult.success () else ApiResult.error 500 msgServerError,
        some { r with u2f := some (mapSet m u2fUuid
          { e with
            encryptedRegistrationRequest := none,
            encryptedPublicKey := some (b64Encode iv1 ++ colonByte ::
              b64Encode (ctrXor ks key iv1 (checkReg req signResult).publicKey)),
            encryptedKeyHandle := some (b64Encode iv2 ++ colonByte ::
              b64Encode (ctrXor ks key iv2 (checkReg req signResult).keyHandle)) }) }⟩ := by
  have htr : truthy e.encryptedRegistrationRequest = true := by
    rw [hreg]; simp [truthy, hrb]
  have hgd : e.encryptedRegistrationRequest.getD [] = rblob := by rw [hreg]; rfl
  have henc1 : encrypt ks iv1 (checkReg req signResult).publicKey apiSecret =
      some (b64Encode iv1 ++ colonByte ::
        b64Encode (ctrXor ks key iv1 (checkReg req signResult).publicKey)) := by
    simp only [encrypt, hkey, hklen, hiv1, and_self, if_true]
  have henc2 : encrypt ks iv2 (checkReg req signResult).keyHandle apiSecret =
      some (b64Encode iv2 ++ colonByte ::
        b64Encode (ctrXor ks key iv2 (checkReg req signResult).keyHandle)) := by
    simp only [encrypt, hkey, hklen, hiv2, and_self, if_true]
  simp only [U2f.validateRegistration, if_neg hU, hu2f, hlu, htr, hgd, hdec,
    hok, if_true, henc1, henc2]
  cases putOk <;> rfl

/-- When no registration challenge is pending (the field is `null`/absent or
empty), `validateRegistration` fails with 500 before the protocol check and
writes nothing. -/
theorem validateRegistration_no_pending (ks : KS)
    (checkReg : Str → Str → RegResult) (iv1 iv2 : Str) (r : ApiKeyRecord)
    (m : List (Str × U2fEntry)) (e : U2fEntry)
    (apiSecret u2fUuid signResult : Str) (putOk : Bool)
    (hU : u2fUuid ≠ []) (hu2f : r.u2f = some m) (hlu : m.lookup u2fUuid = some e)
    (hreg : truthy e.encryptedRegistrationRequest = false) :
    U2f.validateRegistration ks checkReg iv1 iv2 (some r) apiSecret u2fUuid
      signResult putOk = some ⟨ApiResult.error 500 msgServerError, none⟩ := by
  simp only [U2f.validateRegistration, if_neg hU, hu2f, hlu, hreg]
  rfl

/-- A pending-registration U2F credential stored under the all-zero key. -/
def entryReg : U2fEntry :=
  ⟨some (blobOf (strOf "app")), some (blobOf (strOf "rreq")), none, none, none⟩

def recReg : ApiKeyRecord := ⟨true, none, some [(strOf "u", entryReg)]⟩

/-- C5 is false on the code: a concrete `validateRegistration` call on which
every precondition of the claim holds (entry present, stored challenge
decryptable) and the registration check rejects with the message
"attestation rejected" — yet the caller receives the generic 500
`'Internal Server Error'`, not the protocol's own message: part_001 line 273
passes the literal to `response.returnError`, and `result.errorMessage`
goes only to `console.error` on line 272. -/
theorem c5_counterexample :
    decrypt ksZero (blobOf (strOf "rreq")) keyZeroB64 = Except.ok (strOf "rreq") ∧
    (U2f.validateRegistration ksZero
      (fun _ _ => ⟨strOf "attestation rejected", strOf "p", strOf "h"⟩)
      ivZero ivZero (some recReg) keyZeroB64 (strOf "u") (strOf "sig") true
      = some ⟨ApiResult.error 500 msgServerError, none⟩) ∧
    msgServerError ≠ strOf "attestation rejected" :=
  ⟨rfl, rfl, by decide⟩

/-- C5 (amended): whenever the U2F registration-proof check rejects,
`validateRegistration` returns a generic 500 Internal Server Error to the
caller with no store write; the `errorMessage` produced by the registration
check is logged internally but not carried to the caller. -/
theorem c5_registration_failure_internal_error (ks : KS)
    (checkReg : Str → Str → RegResult) (iv1 iv2 : Str) (r : ApiKeyRecord)
    (m : List (Str × U2fEntry)) (e : U2fEntry)
    (apiSecret u2fUuid signResult rblob req : Str) (putOk : Bool)
    (hU : u2fUuid ≠ []) (hu2f : r.u2f = some m) (hlu : m.lookup u2fUuid = some e)
    (hreg : e.encryptedRegistrationRequest = some rblob) (hrb : rblob ≠ [])
    (hdec : decrypt ks rblob apiSecret = Except.ok req)
    (hmsg : (checkReg req signResult).errorMessage ≠ []) :
    U2f.validateRegistration ks checkReg iv1 iv2 (some r) apiSecret u2fUuid
      signResult putOk
      = some ⟨ApiResult.error 500 msgServerError, none⟩ :=
  validateRegistration_protocol_failure ks checkReg iv1 iv2 r m e apiSecret
    u2fUuid signResult rblob req putOk hU hu2f hlu hreg hrb hdec hmsg

theorem c5_witness :
    decrypt ksZero (blobOf (strOf "rreq")) keyZeroB64 = Except.ok (strOf "rreq") ∧
    (strOf "attestation rejected" : Str) ≠ [] ∧
    U2f.validateRegistration ksZero
      (fun _ _ => ⟨strOf "attestation rejected", strOf "p", strOf "h"⟩)
      ivZero ivZero (some recReg) keyZeroB64 (strOf "u") (strOf "sig") true
      = some ⟨ApiResult.error 500 msgServerError, none⟩ :=
  ⟨rfl, by decide, c5_registration_failure_internal_error ksZero
    (fun _ _ => ⟨strOf "attestation rejected", strOf "p", strOf "h"⟩)
    ivZero ivZero recReg [(strOf "u", entryReg)] entryReg keyZeroB64
    (strOf "u") (strOf "sig") (blobOf (strOf "rreq")) (strOf "rreq") true
    (by decide) rfl (by decide) rfl (by decide) rfl (by decide)⟩

/-- A registered credential whose stored `encryptedPublicKey` is a malformed
blob (no `:` delimiter), with a valid pending authentication challenge. -/
def entryBadPk : U2fEntry :=
  ⟨some (blobOf (strOf "app")), none, some (strOf "garbage"),
    some (blobOf (strOf "kh")), some (blobOf (strOf "areq"))⟩

def recBadPk : ApiKeyRecord := ⟨true, none, some [(strOf "u", entryBadPk)]⟩

/-- C6 names a real bug: at part_001 line 206 the decrypt error for
`encryptedPublicKey` is not checked.  Here decrypting the stored public key
fails with a format error, yet `validateAuthentication` does not return 500
Internal Server Error: it proceeds into `u2f.checkSignature` with an absent
public key and returns that check's outcome — 400 with the protocol message
when the check rejects, and even a successful `Valid` (with the record
written) when the check accepts. -/
theorem c6_publickey_decrypt_failure_ignored :
    (decrypt ksZero (strOf "garbage") keyZeroB64 =
      Except.error DecryptError.formatError) ∧
    (U2f.validateAuthentication ksZero
        (fun _ _ pk => if pk.isNone then strOf "missing key" else [])
        (some recBadPk) keyZeroB64 (strOf "u") (strOf "sig") true
      = some ⟨ApiResult.error 400 (strOf "missing key"), none⟩) ∧
    (U2f.validateAuthentication ksZero (fun _ _ _ => [])
        (some recBadPk) keyZeroB64 (strOf "u") (strOf "sig") true
      = some ⟨ApiResult.success (strOf "Valid", 200),
          some ⟨true, none, some [(strOf "u",
            ⟨some (blobOf (strOf "app")), none, some (strOf "garbage"),
              some (blobOf (strOf "kh")), some (strOf " ")⟩)]⟩⟩) :=
  ⟨rfl, rfl, rfl⟩

/-- C8: every precondition-chain failure of every TOTP and U2F entry point
returns an error without handing any record to `updateApiKeyRecord`
(`written = none`): account lookup failure, missing account, unactivated
account, empty uuid, uuid absent from the relevant mapping, missing/empty
request fields. -/
theorem c8_precondition_failures_no_write :
    (∀ ks u2fReq rv rc iv apiSecret u2fUuid putOk,
      U2f.createAuthentication ks u2fReq rv rc iv none apiSecret u2fUuid putOk
        = some ⟨ApiResult.error 401 msgUnauthorized, none⟩) ∧
    (∀ ks u2fReq rv rc iv r apiSecret putOk,
      U2f.createAuthentication ks u2fReq rv rc iv (some r) apiSecret [] putOk
        = some ⟨ApiResult.error 401 msgUnauthorized, none⟩) ∧
    (∀ ks u2fReq rv rc iv act t apiSecret u2fUuid putOk, u2fUuid ≠ [] →
      U2f.createAuthentication ks u2fReq rv rc iv (some ⟨act, t, none⟩)
          apiSecret u2fUuid putOk
        = some ⟨ApiResult.error 404 msgNoU2fEntry, none⟩) ∧
    (∀ ks u2fReq rv rc iv act t m apiSecret u2fUuid putOk, u2fUuid ≠ [] →
      m.lookup u2fUuid = none →
      U2f.createAuthentication ks u2fReq rv rc iv (some ⟨act, t, some m⟩)
          apiSecret u2fUuid putOk
        = some ⟨ApiResult.error 404 msgNoU2fEntry, none⟩) ∧
    (∀ ks regReq iv1 iv2 gen fuel apiSecret appId putOk,
      U2f.createRegistration ks regReq iv1 iv2 gen fuel none apiSecret appId
          putOk
        = some ⟨ApiResult.error 401 msgUnauthorized, none⟩) ∧
    (∀ u2fUuid putOk,
      U2f.delete none u2fUuid putOk
        = ⟨ApiResult.error 401 msgUnauthorized, none⟩) ∧
    (∀ r putOk,
      U2f.delete (some r) [] putOk
        = ⟨ApiResult.error 401 msgUnauthorized, none⟩) ∧
    (∀ act t u2fUuid putOk, u2fUuid ≠ [] →
      U2f.delete (some ⟨act, t, none⟩) u2fUuid putOk
        = ⟨ApiResult.error 404 msgNoU2fEntry, none⟩) ∧
    (∀ act t m u2fUuid putOk, u2fUuid ≠ [] → m.lookup u2fUuid = none →
      U2f.delete (some ⟨act, t, some m⟩) u2fUuid putOk
        = ⟨ApiResult.error 404 msgNoU2fEntry, none⟩) ∧
    (∀ ks checkSig apiSecret u2fUuid signResult putOk,
      U2f.validateAuthentication ks checkSig none apiSecret u2fUuid signResult
          putOk
        = some ⟨ApiResult.error 401 msgUnauthorized, none⟩) ∧
    (∀ ks checkSig r apiSecret signResult putOk,
      U2f.validateAuthentication ks checkSig (some r) apiSecret [] signResult
          putOk
        = some ⟨ApiResult.error 401 msgUnauthorized, none⟩) ∧
    (∀ ks checkSig act t apiSecret u2fUuid signResult putOk, u2fUuid ≠ [] →
      U2f.validateAuthentication ks checkSig (some ⟨act, t, none⟩) apiSecret
          u2fUuid signResult putOk
        = some ⟨ApiResult.error 404 msgNoU2fEntry, none⟩) ∧
    (∀ ks checkSig act t m apiSecret u2fUuid signResult putOk, u2fUuid ≠ [] →
      m.lookup u2fUuid = none →
      U2f.validateAuthentication ks checkSig (some ⟨act, t, some m⟩) apiSecret
          u2fUuid signResult putOk
        = some ⟨ApiResult.error 404 msgNoU2fEntry, none⟩) ∧
    (∀ ks checkReg iv1 iv2 apiSecret u2fUuid signResult putOk,
      U2f.validateRegistration ks checkReg iv1 iv2 none apiSecret u2fUuid
          signResult putOk
        = some ⟨ApiResult.error 401 msgUnauthorized, none⟩) ∧
    (∀ ks checkReg iv1 iv2 r apiSecret signResult putOk,
      U2f.validateRegistration ks checkReg iv1 iv2 (some r) apiSecret []
          signResult putOk
        = some ⟨ApiResult.error 401 msgUnauthorized, none⟩) ∧
    (∀ ks checkReg iv1 iv2 act t apiSecret u2fUuid signResult putOk,
      u2fUuid ≠ [] →
      U2f.validateRegistration ks checkReg iv1 iv2 (some ⟨act, t, none⟩)
          apiSecret u2fUuid signResult putOk
        = some ⟨ApiResult.error 404 msgNoU2fEntry, none⟩) ∧
    (∀ ks checkReg iv1 iv2 act t m apiSecret u2fUuid signResult putOk,
      u2fUuid ≠ [] → m.lookup u2fUuid = none →
      U2f.validateRegistration ks checkReg iv1 iv2 (some ⟨act, t, some m⟩)
          apiSecret u2fUuid signResult putOk
        = some ⟨ApiResult.error 404 msgNoU2fEntry, none⟩) ∧
    (∀ hotp counter ks fetch apiSecret totpUuid code,
      Totp.validate hotp counter ks fetch [] apiSecret totpUuid code
        = some ⟨ApiResult.error 401 msgUnauthorized, none⟩) ∧
    (∀ hotp counter ks fetch apiKeyValue totpUuid code, apiKeyValue ≠ [] →
      Totp.validate hotp counter ks fetch apiKeyValue [] totpUuid code
        = some ⟨ApiResult.error 401 msgUnauthorized, none⟩) ∧
    (∀ hotp counter ks fetch apiKeyValue apiSecret code,
      apiKeyValue ≠ [] → apiSecret ≠ [] →
      Totp.validate hotp counter ks fetch apiKeyValue apiSecret [] code
        = some ⟨ApiResult.error 401 msgUnauthorized, none⟩) ∧
    (∀ hotp counter ks fetch apiKeyValue apiSecret totpUuid,
      apiKeyValue ≠ [] → apiSecret ≠ [] → totpUuid ≠ [] →
      Totp.validate hotp counter ks fetch apiKeyValue apiSecret totpUuid []
        = some ⟨ApiResult.error 400 msgCodeRequired, none⟩) ∧
    (∀ hotp counter ks apiKeyValue apiSecret totpUuid code,
      apiKeyValue ≠ [] → apiSecret ≠ [] → totpUuid ≠ [] → code ≠ [] →
      Totp.validate hotp counter ks (Except.error ()) apiKeyValue apiSecret
          totpUuid code
        = some ⟨ApiResult.error 500 msgTotpError, none⟩) ∧
    (∀ hotp counter ks apiKeyValue apiSecret totpUuid code,
      apiKeyValue ≠ [] → apiSecret ≠ [] → totpUuid ≠ [] → code ≠ [] →
      Totp.validate hotp counter ks (Except.ok none) apiKeyValue apiSecret
          totpUuid code
        = some ⟨ApiResult.error 401 msgUnauthorized, none⟩) ∧
    (∀ hotp counter ks t u apiKeyValue apiSecret totpUuid code,
      apiKeyValue ≠ [] → apiSecret ≠ [] → totpUuid ≠ [] → code ≠ [] →
      Totp.validate hotp counter ks (Except.ok (some ⟨false, t, u⟩)) apiKeyValue
          apiSecret totpUuid code
        = some ⟨ApiResult.error 401 msgUnauthorized, none⟩) ∧
    (∀ hotp counter ks u apiKeyValue apiSecret totpUuid code,
      apiKeyValue ≠ [] → apiSecret ≠ [] → totpUuid ≠ [] → code ≠ [] →
      Totp.validate hotp counter ks (Except.ok (some ⟨true, none, u⟩))
          apiKeyValue apiSecret totpUuid code
        = some ⟨ApiResult.error 401 msgUnauthorized, none⟩) ∧
    (∀ hotp counter ks m u apiKeyValue apiSecret totpUuid code,
      apiKeyValue ≠ [] → apiSecret ≠ [] → totpUuid ≠ [] → code ≠ [] →
      m.lookup totpUuid = none →
      Totp.validate hotp counter ks (Except.ok (some ⟨true, some m, u⟩))
          apiKeyValue apiSecret totpUuid code
        = some ⟨ApiResult.error 401 msgUnauthorized, none⟩) ∧
    (∀ secretB32 qr ks iv gen fuel fetch apiSecret putOk,
      Totp.create secretB32 qr ks iv gen fuel fetch [] apiSecret putOk
        = some ⟨ApiResult.error 401 msgUnauthorized, none⟩) ∧
    (∀ secretB32 qr ks iv gen fuel fetch apiKeyValue putOk, apiKeyValue ≠ [] →
      Totp.create secretB32 qr ks iv gen fuel fetch apiKeyValue [] putOk
        = some ⟨ApiResult.error 401 msgUnauthorized, none⟩) ∧
    (∀ secretB32 qr ks iv gen fuel apiKeyValue apiSecret putOk,
      apiKeyValue ≠ [] → apiSecret ≠ [] →
      Totp.create secretB32 qr ks iv gen fuel (Except.error ()) apiKeyValue
          apiSecret putOk
        = some ⟨ApiResult.error 500 msgRetrieveFailed, none⟩) ∧
    (∀ secretB32 qr ks iv gen fuel apiKeyValue apiSecret putOk,
      apiKeyValue ≠ [] → apiSecret ≠ [] →
      Totp.create secretB32 qr ks iv gen fuel (Except.ok none) apiKeyValue
          apiSecret putOk
        = some ⟨ApiResult.error 401 msgUnauthorized, none⟩) ∧
    (∀ secretB32 qr ks iv gen fuel t u apiKeyValue apiSecret putOk,
      apiKeyValue ≠ [] → apiSecret ≠ [] →
      Totp.create secretB32 qr ks iv gen fuel (Except.ok (some ⟨false, t, u⟩))
          apiKeyValue apiSecret putOk
        = some ⟨ApiResult.error 401 msgUnauthorized, none⟩) := by
  refine ⟨fun _ _ _ _ _ _ _ _ => rfl, fun _ _ _ _ _ _ _ _ => rfl, ?_, ?_,
    fun _ _ _ _ _ _ _ _ _ => rfl, fun _ _ => rfl, fun _ _ => rfl, ?_, ?_,
    fun _ _ _ _ _ _ => rfl, fun _ _ _ _ _ _ => rfl, ?_, ?_,
    fun _ _ _ _ _ _ _ _ => rfl, fun _ _ _ _ _ _ _ _ => rfl, ?_, ?_,
    fun _ _ _ _ _ _ _ => rfl, ?_, ?_, ?_, ?_, ?_, ?_, ?_, ?_,
    fun _ _ _ _ _ _ _ _ _ => rfl, ?_, ?_, ?_, ?_⟩
  · intro ks u2fReq rv rc iv act t apiSecret u2fUuid putOk hU
    simp only [U2f.createAuthentication, if_neg hU]
  · intro ks u2fReq rv rc iv act t m apiSecret u2fUuid putOk hU hlu
    simp only [U2f.createAuthentication, if_neg hU, hlu]
  · intro act t u2fUuid putOk hU
    simp only [U2f.delete, if_neg hU]
  · intro act t m u2fUuid putOk hU hlu
    simp only [U2f.delete, if_neg hU, hlu]
  · intro ks checkSig act t apiSecret u2fUuid signResult putOk hU
    simp only [U2f.validateAuthentication, if_neg hU]
  · intro ks checkSig act t m apiSecret u2fUuid signResult putOk hU hlu
    simp only [U2f.validateAuthentication, if_neg hU, hlu]
  · intro ks checkReg iv1 iv2 act t apiSecret u2fUuid signResult putOk hU
    simp only [U2f.validateRegistration, if_neg hU]
  · intro ks checkReg iv1 iv2 act t m apiSecret u2fUuid signResult putOk hU hlu
    simp only [U2f.validateRegistration, if_neg hU, hlu]
  · intro hotp counter ks fetch apiKeyValue totpUuid code hAK
    simp only [Totp.validate, if_neg hAK, if_pos rfl, if_true]
  · intro hotp counter ks fetch apiKeyValue apiSecret code hAK hAS
    simp only [Totp.validate, if_neg hAK, if_neg hAS, if_pos rfl, if_true]
  · intro hotp counter ks fetch apiKeyValue apiSecret totpUuid hAK hAS hU
    simp only [Totp.validate, if_neg hAK, if_neg hAS, if_neg hU, if_pos rfl, if_true]
  · intro hotp counter ks apiKeyValue apiSecret totpUuid code hAK hAS hU hC
    simp only [Totp.validate, if_neg hAK, if_neg hAS, if_neg hU, if_neg hC]
  · intro hotp counter ks apiKeyValue apiSecret totpUuid code hAK hAS hU hC
    simp only [Totp.validate, if_neg hAK, if_neg hAS, if_neg hU, if_neg hC]
  · intro hotp counter ks t u apiKeyValue apiSecret totpUuid code hAK hAS hU hC
    simp only [Totp.validate, if_neg hAK, if_neg hAS, if_neg hU, if_neg hC]
    rfl
  · intro hotp counter ks u apiKeyValue apiSecret totpUuid code hAK hAS hU hC
    simp only [Totp.validate, if_neg hAK, if_neg hAS, if_neg hU, if_neg hC]
    rfl
  · intro hotp counter ks m u apiKeyValue apiSecret totpUuid code hAK hAS hU hC
      hlu
    simp only [Totp.validate, if_neg hAK, if_neg hAS, if_neg hU, if_neg hC, hlu]
    rfl
  · intro secretB32 qr ks iv gen fuel fetch apiKeyValue putOk hAK
    simp only [Totp.create, if_neg hAK, if_pos rfl, if_true]
  · intro secretB32 qr ks iv gen fuel apiKeyValue apiSecret putOk hAK hAS
    simp only [Totp.create, if_neg hAK, if_neg hAS]
  · intro secretB32 qr ks iv gen fuel apiKeyValue apiSecret putOk hAK hAS
    simp only [Totp.create, if_neg hAK, if_neg hAS]
  · intro secretB32 qr ks iv gen fuel t u apiKeyValue apiSecret putOk hAK hAS
    simp only [Totp.create, if_neg hAK, if_neg hAS]
    rfl

/-! ### The U2F credential-state invariant (spec §3): a credential is either
pending registration or registered, never both. -/

/-- `encryptedRegistrationRequest` present XOR
(`encryptedPublicKey` and `encryptedKeyHandle` present). -/
def u2fInv (e : U2fEntry) : Bool :=
  Bool.xor (truthy e.encryptedRegistrationRequest)
    (truthy e.encryptedPublicKey && truthy e.encryptedKeyHandle)

/-- Every U2F credential record of the account satisfies the invariant. -/
def recordU2fInv (r : ApiKeyRecord) : Prop :=
  ∀ p ∈ r.u2f.getD [], u2fInv p.2 = true

theorem recordU2fInv_set (r : ApiKeyRecord) (m : List (Str × U2fEntry))
    (u : Str) (e' : U2fEntry) (hm : r.u2f.getD [] = m) (hinv : recordU2fInv r)
    (he' : u2fInv e' = true) :
    recordU2fInv { r with u2f := some (mapSet m u e') } := by
  intro p hp
  rcases mem_mapSet hp with h | h
  · subst h; exact he'
  · exact hinv p (by rw [hm]; exact h)

theorem recordU2fInv_del (r : ApiKeyRecord) (m : List (Str × U2fEntry))
    (u : Str) (hm : r.u2f.getD [] = m) (hinv : recordU2fInv r) :
    recordU2fInv { r with u2f := some (mapDel m u) } := by
  intro p hp
  exact hinv p (by rw [hm]; exact List.mem_of_mem_filter hp)

theorem u2fInv_lookup (r : ApiKeyRecord) (m : List (Str × U2fEntry)) (u : Str)
    (e : U2fEntry) (hm : r.u2f = some m) (hlu : m.lookup u = some e)
    (hinv : recordU2fInv r) : u2fInv e = true := by
  have hmem : (u, e) ∈ m := lookup_mem hlu
  have := hinv (u, e) (by rw [hm]; exact hmem)
  exact this

theorem createAuthentication_preserves_inv (ks : KS) (u2fReq : Str → Str → Str)
    (rv rc : Str → Str) (iv : Str) (r : ApiKeyRecord) (apiSecret u2fUuid : Str)
    (putOk : Bool) (o : Outcome (Str × Str × Str × Str × Str))
    (r' : ApiKeyRecord) (hinv : recordU2fInv r)
    (heq : U2f.createAuthentication ks u2fReq rv rc iv (some r) apiSecret
      u2fUuid putOk = some o)
    (hw : o.written = some r') : recordU2fInv r' := by
  simp only [U2f.createAuthentication] at heq
  by_cases hU : u2fUuid = []
  · rw [if_pos hU] at heq; cases heq; simp at hw
  rw [if_neg hU] at heq
  rcases hm : r.u2f with _ | m
  all_goals simp only [hm] at heq
  · cases heq; simp at hw
  rcases hlu : List.lookup u2fUuid m with _ | e
  all_goals simp only [hlu] at heq
  · cases heq; simp at hw
  rcases htr : truthy e.encryptedAppId with _ | _
  all_goals simp only [htr, Bool.false_eq_true, if_false, if_true] at heq
  · cases heq; simp at hw
  rcases hd : decrypt ks (e.encryptedAppId.getD []) apiSecret with de | appId
  · cases de
    all_goals simp only [hd] at heq
    · cases heq; simp at hw
    · cases heq
  rw [hd] at heq
  rcases htr2 : truthy e.encryptedKeyHandle with _ | _
  all_goals simp only [htr2, Bool.false_eq_true, if_false, if_true] at heq
  · cases heq; simp at hw
  rcases hd2 : decrypt ks (e.encryptedKeyHandle.getD []) apiSecret with de | kh
  · cases de
    all_goals simp only [hd2] at heq
    · cases heq; simp at hw
    · cases heq
  rw [hd2] at heq
  rcases he : encrypt ks iv (u2fReq appId kh) apiSecret with _ | blob
  all_goals simp only [he] at heq
  · cases heq
  have hinve : u2fInv { e with encryptedAuthenticationRequest := some blob } =
      true := by
    have := u2fInv_lookup r m u2fUuid e hm hlu hinv
    simpa [u2fInv, truthy] using this
  cases putOk
  all_goals simp only [Bool.false_eq_true, if_false, if_true] at heq
  all_goals cases heq
  all_goals simp only [Option.some.injEq] at hw
  all_goals subst hw
  all_goals exact recordU2fInv_set r m u2fUuid _ (by rw [hm]; rfl) hinv hinve

theorem createRegistration_preserves_inv (ks : KS) (regReq : Str → Str)
    (iv1 iv2 : Str) (gen : Nat → Str) (fuel : Nat) (r : ApiKeyRecord)
    (apiSecret appId : Str) (putOk : Bool) (o : Outcome (Str × Str))
    (r' : ApiKeyRecord) (hinv : recordU2fInv r)
    (heq : U2f.createRegistration ks regReq iv1 iv2 gen fuel (some r) apiSecret
      appId putOk = some o)
    (hw : o.written = some r') : recordU2fInv r' := by
  simp only [U2f.createRegistration] at heq
  rcases ha : allocUuid gen (r.u2f.getD []) fuel with _ | uuid
  all_goals simp only [ha] at heq
  · cases heq
  rcases he1 : encrypt ks iv1 appId apiSecret with _ | encAppId
  all_goals simp only [he1] at heq
  · cases heq
  rcases he2 : encrypt ks iv2 (regReq appId) apiSecret with _ | encReg
  all_goals simp only [he2] at heq
  · cases heq
  have hinve : u2fInv ⟨some encAppId, some encReg, none, none, none⟩ = true := by
    have h2 := encrypt_ne_nil ks iv2 (regReq appId) apiSecret encReg he2
    simp [u2fInv, truthy, h2]
  cases putOk
  all_goals simp only [Bool.false_eq_true, if_false, if_true] at heq
  all_goals cases heq
  all_goals simp only [Option.some.injEq] at hw
  all_goals subst hw
  all_goals exact recordU2fInv_set r (r.u2f.getD []) uuid _ rfl hinv hinve

theorem delete_preserves_inv (r : ApiKeyRecord) (u2fUuid : Str) (putOk : Bool)
    (r' : ApiKeyRecord) (hinv : recordU2fInv r)
    (hw : (U2f.delete (some r) u2fUuid putOk).written = some r') :
    recordU2fInv r' := by
  simp only [U2f.delete] at hw
  by_cases hU : u2fUuid = []
  · rw [if_pos hU] at hw; simp at hw
  rw [if_neg hU] at hw
  rcases hm : r.u2f with _ | m
  all_goals simp only [hm] at hw
  · simp at hw
  rcases hlu : List.lookup u2fUuid m with _ | e
  all_goals simp only [hlu] at hw
  · simp at hw
  cases putOk
  all_goals simp only [Bool.false_eq_true, if_false, if_true,
    Option.some.injEq] at hw
  all_goals subst hw
  all_goals exact recordU2fInv_del r m u2fUuid (by rw [hm]; rfl) hinv

theorem validateAuthentication_preserves_inv (ks : KS)
    (checkSig : Str → Str → Option Str → Str) (r : ApiKeyRecord)
    (apiSecret u2fUuid signResult : Str) (putOk : Bool)
    (o : Outcome (Str × Nat)) (r' : ApiKeyRecord) (hinv : recordU2fInv r)
    (heq : U2f.validateAuthentication ks checkSig (some r) apiSecret u2fUuid
      signResult putOk = some o)
    (hw : o.written = some r') : recordU2fInv r' := by
  simp only [U2f.validateAuthentication] at heq
  by_cases hU : u2fUuid = []
  · rw [if_pos hU] at heq; cases heq; simp at hw
  rw [if_neg hU] at heq
  rcases hm : r.u2f with _ | m
  all_goals simp only [hm] at heq
  · cases heq; simp at hw
  rcases hlu : List.lookup u2fUuid m with _ | e
  all_goals simp only [hlu] at heq
  · cases heq; simp at hw
  rcases htr : truthy e.encryptedAuthenticationRequest with _ | _
  all_goals simp only [htr, Bool.false_eq_true, if_false, if_true] at heq
  · cases heq; simp at hw
  rcases hd : decrypt ks (e.encryptedAuthenticationRequest.getD []) apiSecret
    with de | areq
  · cases de
    all_goals simp only [hd] at heq
    · cases heq; simp at hw
    · cases heq
  rw [hd] at heq
  rcases htr2 : truthy e.encryptedPublicKey with _ | _
  all_goals simp only [htr2, Bool.false_eq_true, if_false, if_true] at heq
  · cases heq; simp at hw
  have hinve : ∀ b, u2fInv { e with encryptedAuthenticationRequest := b } =
      true := by
    intro b
    have := u2fInv_lookup r m u2fUuid e hm hlu hinv
    simpa [u2fInv, truthy] using this
  rcases hd2 : decrypt ks (e.encryptedPublicKey.getD []) apiSecret with de | pk
  · cases de
    all_goals simp only [hd2] at heq
    · by_cases hmsg : checkSig areq signResult none = []
      · rw [if_pos hmsg] at heq
        cases putOk
        all_goals simp only [Bool.false_eq_true, if_false, if_true] at heq
        all_goals cases heq
        all_goals simp only [Option.some.injEq] at hw
        all_goals subst hw
        all_goals exact recordU2fInv_set r m u2fUuid _ (by rw [hm]; rfl) hinv (hinve _)
      · rw [if_neg hmsg] at heq
        cases heq; simp at hw
    · cases heq
  · simp only [hd2] at heq
    by_cases hmsg : checkSig areq signResult (some pk) = []
    · rw [if_pos hmsg] at heq
      cases putOk
      all_goals simp only [Bool.false_eq_true, if_false, if_true] at heq
      all_goals cases heq
      all_goals simp only [Option.some.injEq] at hw
      all_goals subst hw
      all_goals exact recordU2fInv_set r m u2fUuid _ (by rw [hm]; rfl) hinv (hinve _)
    · rw [if_neg hmsg] at heq
      cases heq; simp at hw

theorem validateRegistration_preserves_inv (ks : KS)
    (checkReg : Str → Str → RegResult) (iv1 iv2 : Str) (r : ApiKeyRecord)
    (apiSecret u2fUuid signResult : Str) (putOk : Bool) (o : Outcome Unit)
    (r' : ApiKeyRecord) (hinv : recordU2fInv r)
    (heq : U2f.validateRegistration ks checkReg iv1 iv2 (some r) apiSecret
      u2fUuid signResult putOk = some o)
    (hw : o.written = some r') : recordU2fInv r' := by
  simp only [U2f.validateRegistration] at heq
  by_cases hU : u2fUuid = []
  · rw [if_pos hU] at heq; cases heq; simp at hw
  rw [if_neg hU] at heq
  rcases hm : r.u2f with _ | m
  all_goals simp only [hm] at heq
  · cases heq; simp at hw
  rcases hlu : List.lookup u2fUuid m with _ | e
  all_goals simp only [hlu] at heq
  · cases heq; simp at hw
  rcases htr : truthy e.encryptedRegistrationRequest with _ | _
  all_goals simp only [htr, Bool.false_eq_true, if_false, if_true] at heq
  · cases heq; simp at hw
  rcases hd : decrypt ks (e.encryptedRegistrationRequest.getD []) apiSecret
    with de | req
  · cases de
    all_goals simp only [hd] at heq
    · cases heq; simp at hw
    · cases heq
  simp only [hd] at heq
  by_cases hmsg : (checkReg req signResult).errorMessage = []
  · rw [if_pos hmsg] at heq
    rcases he1 : encrypt ks iv1 (checkReg req signResult).publicKey apiSecret
      with _ | encPk
    all_goals simp only [he1] at heq
    · cases heq
    rcases he2 : encrypt ks iv2 (checkReg req signResult).keyHandle apiSecret
      with _ | encKh
    all_goals simp only [he2] at heq
    · cases heq
    have hinve : u2fInv
        { e with
          encryptedRegistrationRequest := none,
          encryptedPublicKey := some encPk,
          encryptedKeyHandle := some encKh } = true := by
      have h1 := encrypt_ne_nil ks iv1 _ apiSecret encPk he1
      have h2 := encrypt_ne_nil ks iv2 _ apiSecret encKh he2
      simp [u2fInv, truthy, h1, h2]
    cases putOk
    all_goals simp only [Bool.false_eq_true, if_false, if_true] at heq
    all_goals cases heq
    all_goals simp only [Option.some.injEq] at hw
    all_goals subst hw
    all_goals exact recordU2fInv_set r m u2fUuid _ (by rw [hm]; rfl) hinv hinve
  · rw [if_neg hmsg] at heq
    cases heq; simp at hw

theorem truthy_colon_blob (a l : Str) : truthy (some (a ++ colonByte :: l)) = true := by
  cases a <;> rfl

theorem createRegistration_shape (ks : KS) (regReq : Str → Str) (iv1 iv2 : Str)
    (gen : Nat → Str) (fuel : Nat) (r : ApiKeyRecord) (apiSecret appId : Str)
    (putOk : Bool) (uuid key : Str)
    (ha : allocUuid gen (r.u2f.getD []) fuel = some uuid)
    (hkey : b64Decode apiSecret = some key) (hklen : key.length = 32)
    (hiv1 : iv1.length = 16) (hiv2 : iv2.length = 16) :
    U2f.createRegistration ks regReq iv1 iv2 gen fuel (some r) apiSecret appId
      putOk
      = some ⟨if putOk then ApiResult.success (uuid, regReq appId)
              else ApiResult.error 500 msgServerError,
          some { r with u2f := some (mapSet (r.u2f.getD []) uuid
            ⟨some (b64Encode iv1 ++ colonByte ::
                b64Encode (ctrXor ks key iv1 appId)),
              some (b64Encode iv2 ++ colonByte ::
                b64Encode (ctrXor ks key iv2 (regReq appId))),
              none, none, none⟩) }⟩ := by
  have henc1 : encrypt ks iv1 appId apiSecret = some (b64Encode iv1 ++
      colonByte :: b64Encode (ctrXor ks key iv1 appId)) := by
    simp only [encrypt, hkey, hklen, hiv1, and_self, if_true]
  have henc2 : encrypt ks iv2 (regReq appId) apiSecret = some (b64Encode iv2 ++
      colonByte :: b64Encode (ctrXor ks key iv2 (regReq appId))) := by
    simp only [encrypt, hkey, hklen, hiv2, and_self, if_true]
  simp only [U2f.createRegistration, ha, henc1, henc2]
  cases putOk <;> rfl

/-- C2: every U2F credential record is always either pending registration or
registered, never both: all five U2F operations preserve the
`encryptedRegistrationRequest` XOR (`encryptedPublicKey` ∧
`encryptedKeyHandle`) invariant over every record they write back; after
`createRegistration` the new credential has a registration request and no
public key or key handle; after a successful `validateRegistration` it has an
encrypted public key and key handle and no registration request, and a second
`validateRegistration` on the same UUID fails (500, no pending challenge)
with no write. -/
theorem c2_u2f_pending_xor_registered :
    (∀ ks regReq iv1 iv2 gen fuel r apiSecret appId putOk o r',
      recordU2fInv r →
      U2f.createRegistration ks regReq iv1 iv2 gen fuel (some r) apiSecret
        appId putOk = some o →
      o.written = some r' → recordU2fInv r') ∧
    (∀ ks u2fReq rv rc iv r apiSecret u2fUuid putOk o r',
      recordU2fInv r →
      U2f.createAuthentication ks u2fReq rv rc iv (some r) apiSecret u2fUuid
        putOk = some o →
      o.written = some r' → recordU2fInv r') ∧
    (∀ ks checkReg iv1 iv2 r apiSecret u2fUuid signResult putOk o r',
      recordU2fInv r →
      U2f.validateRegistration ks checkReg iv1 iv2 (some r) apiSecret u2fUuid
        signResult putOk = some o →
      o.written = some r' → recordU2fInv r') ∧
    (∀ ks checkSig r apiSecret u2fUuid signResult putOk o r',
      recordU2fInv r →
      U2f.validateAuthentication ks checkSig (some r) apiSecret u2fUuid
        signResult putOk = some o →
      o.written = some r' → recordU2fInv r') ∧
    (∀ r u2fUuid putOk r', recordU2fInv r →
      (U2f.delete (some r) u2fUuid putOk).written = some r' →
      recordU2fInv r') ∧
    (∀ ks regReq iv1 iv2 gen fuel r apiSecret appId putOk uuid key,
      allocUuid gen (r.u2f.getD []) fuel = some uuid →
      b64Decode apiSecret = some key → key.length = 32 →
      iv1.length = 16 → iv2.length = 16 →
      ∃ r' e', U2f.createRegistration ks regReq iv1 iv2 gen fuel (some r)
          apiSecret appId putOk
          = some ⟨if putOk then ApiResult.success (uuid, regReq appId)
                  else ApiResult.error 500 msgServerError, some r'⟩ ∧
        (r'.u2f.getD []).lookup uuid = some e' ∧
        truthy e'.encryptedRegistrationRequest = true ∧
        e'.encryptedPublicKey = none ∧ e'.encryptedKeyHandle = none) ∧
    (∀ ks checkReg iv1 iv2 r m e apiSecret u2fUuid signResult rblob req key
        putOk,
      u2fUuid ≠ [] → r.u2f = some m → m.lookup u2fUuid = some e →
      e.encryptedRegistrationRequest = some rblob → rblob ≠ [] →
      decrypt ks rblob apiSecret = Except.ok req →
      (checkReg req signResult).errorMessage = [] →
      b64Decode apiSecret = some key → key.length = 32 →
      iv1.length = 16 → iv2.length = 16 →
      ∃ r' e', U2f.validateRegistration ks checkReg iv1 iv2 (some r) apiSecret
          u2fUuid signResult putOk
          = some ⟨if putOk then ApiResult.success ()
                  else ApiResult.error 500 msgServerError, some r'⟩ ∧
        (r'.u2f.getD []).lookup u2fUuid = some e' ∧
        e'.encryptedRegistrationRequest = none ∧
        truthy e'.encryptedPublicKey = true ∧
        truthy e'.encryptedKeyHandle = true ∧
        (∀ checkReg2 iv3 iv4 signResult2 putOk2,
          U2f.validateRegistration ks checkReg2 iv3 iv4 (some r') apiSecret
            u2fUuid signResult2 putOk2
            = some ⟨ApiResult.error 500 msgServerError, none⟩)) := by
  refine ⟨?_, ?_, ?_, ?_, ?_, ?_, ?_⟩
  · intro ks regReq iv1 iv2 gen fuel r apiSecret appId putOk o r' hinv heq hw
    exact createRegistration_preserves_inv ks regReq iv1 iv2 gen fuel r
      apiSecret appId putOk o r' hinv heq hw
  · intro ks u2fReq rv rc iv r apiSecret u2fUuid putOk o r' hinv heq hw
    exact createAuthentication_preserves_inv ks u2fReq rv rc iv r apiSecret
      u2fUuid putOk o r' hinv heq hw
  · intro ks checkReg iv1 iv2 r apiSecret u2fUuid signResult putOk o r' hinv
      heq hw
    exact validateRegistration_preserves_inv ks checkReg iv1 iv2 r apiSecret
      u2fUuid signResult putOk o r' hinv heq hw
  · intro ks checkSig r apiSecret u2fUuid signResult putOk o r' hinv heq hw
    exact validateAuthentication_preserves_inv ks checkSig r apiSecret u2fUuid
      signResult putOk o r' hinv heq hw
  · intro r u2fUuid putOk r' hinv hw
    exact delete_preserves_inv r u2fUuid putOk r' hinv hw
  · intro ks regReq iv1 iv2 gen fuel r apiSecret appId putOk uuid key ha hkey
      hklen hiv1 hiv2
    refine ⟨_, _, createRegistration_shape ks regReq iv1 iv2 gen fuel r
      apiSecret appId putOk uuid key ha hkey hklen hiv1 hiv2,
      lookup_mapSet_self (r.u2f.getD []) uuid _, ?_, rfl, rfl⟩
    exact truthy_colon_blob _ _
  · intro ks checkReg iv1 iv2 r m e apiSecret u2fUuid signResult rblob req key
      putOk hU hm hlu hreg hrb hdec hok hkey hklen hiv1 hiv2
    refine ⟨_, _, validateRegistration_success ks checkReg iv1 iv2 r m e
      apiSecret u2fUuid signResult rblob req key putOk hU hm hlu hreg hrb hdec
      hok hkey hklen hiv1 hiv2,
      lookup_mapSet_self m u2fUuid _, rfl, ?_, ?_, ?_⟩
    · exact truthy_colon_blob _ _
    · exact truthy_colon_blob _ _
    · intro checkReg2 iv3 iv4 signResult2 putOk2
      exact validateRegistration_no_pending ks checkReg2 iv3 iv4 _
        (mapSet m u2fUuid _) _ apiSecret u2fUuid signResult2 putOk2 hU rfl
        (lookup_mapSet_self m u2fUuid _) rfl

/-- The record left after a successful `validateRegistration` on `recReg`. -/
def recRegDone : ApiKeyRecord :=
  ⟨true, none, some [(strOf "u",
    ⟨some (blobOf (strOf "app")), none, some (blobOf (strOf "p")),
      some (blobOf (strOf "h")), none⟩)]⟩

/-- The record left after `createRegistration` on a fresh account. -/
def recRegPending : ApiKeyRecord :=
  ⟨true, none, some [(strOf "u",
    ⟨some (blobOf (strOf "app")), some (blobOf (strOf "app")), none, none,
      none⟩)]⟩

theorem c2_witness :
    recordU2fInv recAuth ∧ recordU2fInv recReg ∧
    recordU2fInv (⟨true, none, some []⟩ : ApiKeyRecord) ∧
    recordU2fInv recRegDone ∧ recordU2fInv recRegPending := by
  refine ⟨by unfold recordU2fInv; decide, by unfold recordU2fInv; decide,
    ?_, ?_, ?_⟩
  · exact c2_u2f_pending_xor_registered.2.2.2.2.1 recAuth (strOf "u") true
      ⟨true, none, some []⟩ (by unfold recordU2fInv; decide) rfl
  · exact c2_u2f_pending_xor_registered.2.2.1 ksZero
      (fun _ _ => ⟨[], strOf "p", strOf "h"⟩) ivZero ivZero recReg keyZeroB64
      (strOf "u") (strOf "s") true _ recRegDone
      (by unfold recordU2fInv; decide) rfl rfl
  · exact c2_u2f_pending_xor_registered.1 ksZero (fun a => a) ivZero ivZero
      (fun _ => strOf "u") 1 ⟨true, none, none⟩ keyZeroB64 (strOf "app") true
      _ recRegPending (by unfold recordU2fInv; decide) rfl rfl

theorem c8_witness :
    ((strOf "u" : Str) ≠ []) ∧
    (U2f.delete (some ⟨true, none, none⟩) (strOf "u") true
      = ⟨ApiResult.error 404 msgNoU2fEntry, none⟩) ∧
    (Totp.validate (fun _ _ => []) 1 ksZero (Except.ok none) (strOf "k")
        keyZeroB64 (strOf "u") (strOf "1")
      = some ⟨ApiResult.error 401 msgUnauthorized, none⟩) ∧
    (U2f.validateRegistration ksZero (fun _ _ => ⟨[], [], []⟩) ivZero ivZero
        (some ⟨true, none, some []⟩) keyZeroB64 (strOf "u") (strOf "s") true
      = some ⟨ApiResult.error 404 msgNoU2fEntry, none⟩) := by
  obtain ⟨h1, h2, h3, h4, h5, h6, h7, h8, h9, h10, h11, h12, h13, h14, h15,
    h16, h17, h18, h19, h20, h21, h22, h23, h24, h25, h26, h27, h28, h29,
    h30, h31⟩ := c8_precondition_failures_no_write
  exact ⟨by decide, h8 true none (strOf "u") true (by decide),
    h23 (fun _ _ => []) 1 ksZero (strOf "k") keyZeroB64 (strOf "u") (strOf "1")
      (by decide) (by decide) (by decide) (by decide),
    h17 ksZero (fun _ _ => ⟨[], [], []⟩) ivZero ivZero true none []
      keyZeroB64 (strOf "u") (strOf "s") true (by decide) rfl⟩
